import Mathlib

/-!
Verification of the virtual-tour-guide query-understanding and dialogue
pipeline: a shallow embedding in Lean 4 of the intent classifier, duration
parser, place-name correction, safety filters and the itinerary slot-filling
state machine, together with theorems checking the documented behaviour.

Conventions of the embedding:
* Python strings are modelled as `String` / `List Char`; all inputs of
  interest are ASCII, so the ASCII fragments of `str.lower`, `\s`, `\d`,
  `\w` are modelled (numeric character classes mirror the ASCII ranges).
* Python regular-expression searches are modelled by hand-rolled scanners
  specialised to each concrete pattern of the source; where a pattern is
  deterministic under leftmost greedy matching this is noted at the
  definition.
* Python `dict`/`set` literals are modelled as `List`s in the textual order
  of the source literal; all properties proved below are independent of the
  iteration order except where a uniqueness hypothesis makes the order
  irrelevant, as noted.
* `float` arithmetic of `parse_minutes` is modelled exactly over rationals
  with round-half-to-even (Python `round`); every concrete value appearing
  in a theorem below is exactly representable, so the model agrees with the
  binary floating point computation there.
-/

set_option maxRecDepth 100000

namespace VTG

/-! ## Character and string utilities (ASCII models of the Python primitives) -/

/-- Python `\s` (ASCII): space, tab, newline, carriage return, vertical tab, form feed. -/
def isSpaceCh (c : Char) : Bool :=
  c.toNat = 32 || c.toNat = 9 || c.toNat = 10 || c.toNat = 13 || c.toNat = 11 || c.toNat = 12

/-- Python `\d` (ASCII): characters 0-9 (codes 48-57). -/
def isDigitCh (c : Char) : Bool := 48 ≤ c.toNat && c.toNat ≤ 57

/-- Lowercase ASCII letter a-z (codes 97-122). -/
def isLowerCh (c : Char) : Bool := 97 ≤ c.toNat && c.toNat ≤ 122

/-- Uppercase ASCII letter A-Z (codes 65-90). -/
def isUpperCh (c : Char) : Bool := 65 ≤ c.toNat && c.toNat ≤ 90

/-- `[a-zA-Z]`. -/
def isAlphaCh (c : Char) : Bool := isLowerCh c || isUpperCh c

/-- Python `\w` (ASCII): letters, digits and underscore. -/
def isWordCh (c : Char) : Bool := isAlphaCh c || isDigitCh c || c.toNat = 95

/-- ASCII `str.lower` on one character. -/
def lowerCh (c : Char) : Char :=
  if isUpperCh c then Char.ofNat (c.toNat + 32) else c

/-- ASCII `str.lower` on a character list. -/
def lowerL (l : List Char) : List Char := l.map lowerCh

/-- ASCII `str.lower` on a string. -/
def lowerS (s : String) : String := String.mk (lowerL s.data)

/-- Value of a decimal digit character. -/
def digitVal (c : Char) : Nat := c.toNat - 48

/-- Decimal value of a digit run (the `int(...)` of a `\d+` capture). -/
def digitsToNat (l : List Char) : Nat := l.foldl (fun acc c => 10 * acc + digitVal c) 0

/-- Python `str.strip()` (whitespace from both ends). -/
def pyStripL (l : List Char) : List Char :=
  ((l.dropWhile isSpaceCh).reverse.dropWhile isSpaceCh).reverse

/-- Python `str.strip()` on a string. -/
def pyStrip (s : String) : String := String.mk (pyStripL s.data)

/-- Python `str.strip(chars)` for an explicit character set. -/
def pyStripCharsL (cs : List Char) (l : List Char) : List Char :=
  ((l.dropWhile (cs.contains ·)).reverse.dropWhile (cs.contains ·)).reverse

/-- Whether `p` occurs as a contiguous sublist of `l` (Python `in` on strings). -/
def infixOf (p : List Char) : List Char → Bool
  | [] => p.isPrefixOf []
  | c :: cs => p.isPrefixOf (c :: cs) || infixOf p cs

/-- Python substring containment `sub in t`. -/
def containsSub (t sub : String) : Bool := infixOf sub.data t.data

/-- Whether `p` is a prefix of the character list `l` (a literal match at a position). -/
def litPre (p : String) (l : List Char) : Bool := p.data.isPrefixOf l

/-- Python `str.split()` (split on whitespace runs, dropping empty fields),
accumulating the current field in reverse in `cur`. -/
def pySplitWsGo (cur : List Char) : List Char → List (List Char)
  | [] => if cur.isEmpty then [] else [cur.reverse]
  | c :: cs =>
    if isSpaceCh c then
      if cur.isEmpty then pySplitWsGo [] cs else cur.reverse :: pySplitWsGo [] cs
    else pySplitWsGo (c :: cur) cs

/-- Python `str.split()`. -/
def pySplitWs (l : List Char) : List (List Char) := pySplitWsGo [] l

/-- Python `str.replace(pat, rep)` for a non-empty `pat`: scan left to right,
replacing non-overlapping occurrences and continuing after each replacement.
`fuel` bounds the number of scan steps; every step consumes at least one
input character, so `fuel = l.length` makes the scan total and exact. -/
def replaceAllGo (pat rep : List Char) : Nat → List Char → List Char
  | _, [] => []
  | 0, l => l
  | Nat.succ fuel, c :: cs =>
    if pat ≠ [] && pat.isPrefixOf (c :: cs) then
      rep ++ replaceAllGo pat rep fuel ((c :: cs).drop pat.length)
    else
      c :: replaceAllGo pat rep fuel cs

/-- Python `str.replace(pat, rep)`. -/
def replaceAll (pat rep l : List Char) : List Char := replaceAllGo pat rep l.length l

/-- Leftmost regex search: try the matcher at each start position, left to
right, returning the first success (Python `re.search`). -/
def reSearch {α : Type} (m : List Char → Option α) : List Char → Option α
  | [] => m []
  | c :: cs =>
    match m (c :: cs) with
    | some r => some r
    | none => reSearch m cs

/-- Round-half-to-even of the exact rational `num / den` (Python `round` on a
float whose value is exactly `num / den`), for `den > 0`. -/
def roundHalfEven (num den : Nat) : Nat :=
  let q := num / den
  let r := num % den
  if 2 * r < den then q
  else if 2 * r > den then q + 1
  else if q % 2 = 0 then q else q + 1

/-! ## `agents/dialogue_agent.py` (the copy in `old_system/`): duration and
city extraction and the keyword intent router -/

namespace Dlg

/-- A successful match of `TIME_PAT`
`(?:(\d+(?:\.\d+)?)\s*(?:hours?|hrs?|h))|(?:(\d+)\s*(?:minutes?|mins?|m))`:
either group 1 (an hours amount: integer digits plus optional fractional
digits) or group 2 (an integer minutes amount). -/
inductive TimeVal : Type
  | hoursV (intPart : Nat) (fracDigits : List Char)
  | minutesV (n : Nat)
deriving DecidableEq, Repr

/-- The `hours?|hrs?|h` alternation of `TIME_PAT` at a position (each
alternative is a literal; nothing follows it in the pattern, so a prefix
test per alternative is exact). -/
def hoursUnitAt (l : List Char) : Bool :=
  litPre "hours" l || litPre "hour" l || litPre "hrs" l || litPre "hr" l || litPre "h" l

/-- The `minutes?|mins?|m` alternation of `TIME_PAT` at a position. -/
def minutesUnitAt (l : List Char) : Bool :=
  litPre "minutes" l || litPre "minute" l || litPre "mins" l || litPre "min" l || litPre "m" l

/-- `TIME_PAT` tried at one start position: the hours alternative first, then
the minutes alternative (the order of the regex alternation).  Greedy maximal
munch is exact here: every token boundary of the pattern separates disjoint
character classes, so no backtracking into `\d+`, `(?:\.\d+)?` or `\s*` can
turn a failure into a success (argued token by token in the source pattern). -/
def timeMatchAt (l : List Char) : Option TimeVal :=
  let ds := l.takeWhile isDigitCh
  let r1 := l.dropWhile isDigitCh
  if ds.isEmpty then none
  else
    let fr :=
      match r1 with
      | c :: rest =>
        if c = '.' then
          let fs := rest.takeWhile isDigitCh
          if fs.isEmpty then ([], r1) else (fs, rest.dropWhile isDigitCh)
        else ([], r1)
      | [] => ([], r1)
    if hoursUnitAt (fr.2.dropWhile isSpaceCh) then
      some (.hoursV (digitsToNat ds) fr.1)
    else if minutesUnitAt (r1.dropWhile isSpaceCh) then
      some (.minutesV (digitsToNat ds))
    else none

/-- `parse_minutes(text)`: lowercase, search `TIME_PAT`; an hours match gives
`max(30, int(round(hours * 60)))`, a minutes match gives
`max(15, int(group(2)))`, no match gives `None`.  The source computes
`float(group(1)) * 60` in double precision and applies Python `round`
(half-to-even); this embedding computes the same value over exact rationals.
The two agree exactly when both the captured value and its product with 60
are representable in a double — in particular for integer hour captures of
at most 14 digits (then `n ≤ 10^14 − 1` and `n·60 < 2^53`, so `float(n)` and
the product are exact) and for fractions such as `.5` or `.25` whose value
and 60-fold are dyadic with small numerators.  Theorems about the hours
branch are stated only inside this exact regime. -/
def parse_minutes (text : String) : Option Nat :=
  match reSearch timeMatchAt (lowerL text.data) with
  | none => none
  | some (.hoursV n frac) =>
    some (max 30 (roundHalfEven ((n * 10 ^ frac.length + digitsToNat frac) * 60)
      (10 ^ frac.length)))
  | some (.minutesV n) => some (max 15 n)

example : parse_minutes "2 hours" = some 120 := by decide
example : parse_minutes "120m" = some 120 := by decide
example : parse_minutes "10 min" = some 15 := by decide
example : parse_minutes "1.5 hours" = some 90 := by decide
example : parse_minutes "plan a tour" = none := by decide
example : parse_minutes "2h" = some 120 := by decide

/-- Python `str.title()` (ASCII): uppercase a letter not preceded by a letter,
lowercase the other letters; `prevAlpha` records whether the previous
character was a letter. -/
def pyTitleGo (prevAlpha : Bool) : List Char → List Char
  | [] => []
  | c :: cs =>
    if isAlphaCh c then
      (if prevAlpha then lowerCh c else
        if isLowerCh c then Char.ofNat (c.toNat - 32) else c) :: pyTitleGo true cs
    else c :: pyTitleGo false cs

/-- Python `str.title()` on a character list. -/
def pyTitle (l : List Char) : List Char := pyTitleGo false l

/-- The character class `[a-zA-Z\s\-']` of `CITY_PAT`. -/
def cityClassCh (c : Char) : Bool := isAlphaCh c || isSpaceCh c || c = '-' || c = '\''

/-- `\b` after a captured run: the boundary between the run's last character
and what follows (end of input counts as a non-word side). -/
def wordBoundaryAfter (last : Char) (rest : List Char) : Bool :=
  match rest with
  | [] => isWordCh last
  | c :: _ => isWordCh last != isWordCh c

/-- Backtracking for `([a-zA-Z][a-zA-Z\s\-']{1,40})\b`: `ext` is the current
greedy extension after the leading letter `first`; shrink it from the right
until `\b` holds, requiring at least one extension character (`{1,40}`).
`fuel` bounds the number of shrink steps; `fuel = ext.length` is exact. -/
def cityBacktrackGo (first : Char) : Nat → List Char → List Char → Option (List Char)
  | _, [], _ => none
  | 0, _, _ => none
  | Nat.succ fuel, e :: es, rest =>
    let lastC := (e :: es).getLast (by simp)
    if wordBoundaryAfter lastC rest then some (first :: e :: es)
    else cityBacktrackGo first fuel (e :: es).dropLast (lastC :: rest)

/-- Backtracking entry point for the `CITY_PAT` capture group. -/
def cityBacktrack (first : Char) (ext rest : List Char) : Option (List Char) :=
  cityBacktrackGo first ext.length ext rest

/-- One alternative `kw` of `CITY_PAT`'s `(?:in|at|around|for)` tried at a
position, case-insensitively, followed by `\s+` and the capture group. -/
def cityAlt (kw : String) (l : List Char) : Option (List Char) :=
  if litPre kw (lowerL l) then
    let r := l.drop kw.length
    if (r.takeWhile isSpaceCh).isEmpty then none
    else
      match r.dropWhile isSpaceCh with
      | [] => none
      | c :: rest =>
        if isAlphaCh c then
          let run := (rest.takeWhile cityClassCh).take 40
          cityBacktrack c run (rest.drop run.length)
        else none
  else none

/-- `CITY_PAT` `(?:in|at|around|for)\s+([a-zA-Z][a-zA-Z\s\-']{1,40})\b` at one
position: the four keyword alternatives are mutually exclusive at any given
position, tried in the pattern's order. -/
def cityMatchAt (l : List Char) : Option (List Char) :=
  match cityAlt "in" l with
  | some r => some r
  | none =>
    match cityAlt "at" l with
    | some r => some r
    | none =>
      match cityAlt "around" l with
      | some r => some r
      | none => cityAlt "for" l

/-- `re.split(r"[^a-zA-Z]+", t)` with empty fields dropped: the maximal runs
of ASCII letters, accumulated in reverse in `cur`. -/
def splitAlphaRunsGo (cur : List Char) : List Char → List (List Char)
  | [] => if cur.isEmpty then [] else [cur.reverse]
  | c :: cs =>
    if isAlphaCh c then splitAlphaRunsGo (c :: cur) cs
    else if cur.isEmpty then splitAlphaRunsGo [] cs
    else cur.reverse :: splitAlphaRunsGo [] cs

/-- `re.split(r"[^a-zA-Z]+", t)` with empty fields dropped. -/
def splitAlphaRuns (l : List Char) : List (List Char) := splitAlphaRunsGo [] l

/-- `_extract_city(text)`: search `CITY_PAT` in the stripped text and return
the captured group stripped of `" ?!."` and title-cased; otherwise, if the
text has at most three alphabetic words, join and title-case them; otherwise
no city. -/
def extract_city (text : String) : Option String :=
  let t := pyStrip text
  match reSearch cityMatchAt t.data with
  | some cap => some (String.mk (pyTitle (pyStripCharsL ( " ?!.").data cap)))
  | none =>
    let words := splitAlphaRuns t.data
    if words.length ≤ 3 then
      if words.isEmpty then none
      else some (String.mk (pyTitle (List.intercalate [ ' ' ] words)))
    else none

/-- The suffix after the first occurrence of `pat` (Python
`s.split(pat, 1)[1]`, for `pat` known to occur). -/
def afterFirst (pat : List Char) : List Char → List Char
  | [] => []
  | c :: cs =>
    if pat.isPrefixOf (c :: cs) then (c :: cs).drop pat.length
    else afterFirst pat cs

/-- `FACTS_TRIGGERS` in source order. -/
def FACTS_TRIGGERS : List String :=
  [ "tell me about", "facts", "history", "info about", "information about",
    "what is", "where is", "ticket", "opening", "close time" ]

/-- `PLAN_TRIGGERS` in source order. -/
def PLAN_TRIGGERS : List String :=
  [ "plan", "route", "itinerary", "tour", "make a plan", "schedule",
    "visit plan", "trip plan", "route plan" ]

/-- `CHITCHAT_TRIGGERS` in source order. -/
def CHITCHAT_TRIGGERS : List String :=
  [ "hi", "hello", "hey", "good morning", "good evening", "good night",
    "how are you", "what's up", "whats up", "good afternoon", "greetings" ]

/-- `GREETING_SIMPLE`. -/
def GREETING_SIMPLE : List String := [ "hi", "hello", "hey", "greetings" ]

/-- `GREETING_TIME`. -/
def GREETING_TIME : List String :=
  [ "good morning", "good afternoon", "good evening", "good night" ]

/-- The result of `route_intent`: the intent label with its payload dict. -/
inductive Routed : Type
  | helpR
  | itineraryR (city : Option String) (minutes : Option Nat)
  | factsR (place : String)
  | chitchatR (greeting : String)
deriving DecidableEq, Repr

/-- `route_intent(text)`: help keywords, then tour-planning keywords, then
facts keywords, then greetings on short queries or exact greeting matches,
else a facts request carrying the stripped text. -/
def route_intent (text : String) : Routed :=
  let t := pyStrip (lowerS text)
  if containsSub t "help" || containsSub t "how to use" || containsSub t "what can you do" then
    .helpR
  else if PLAN_TRIGGERS.any (fun k => containsSub t k) then
    .itineraryR (extract_city text) (parse_minutes text)
  else if FACTS_TRIGGERS.any (fun k => containsSub t k) then
    let place :=
      if containsSub t "about" then
        String.mk (afterFirst ( "about").data (lowerS text).data)
      else ""
    let chosen := if place = "" then text else place
    .factsR (String.mk (pyStripCharsL ( " ?!.").data chosen.data))
  else
    let words := pySplitWs t.data
    if words.length ≤ 2 && CHITCHAT_TRIGGERS.any (fun k => containsSub t k) then
      let kind :=
        if GREETING_TIME.any (fun k => containsSub t k) then
          if containsSub t "good morning" then "morning"
          else if containsSub t "good afternoon" then "afternoon"
          else if containsSub t "good evening" then "evening"
          else if containsSub t "good night" then "night"
          else "generic"
        else if GREETING_SIMPLE.any (fun k => containsSub t k) then "simple"
        else "generic"
      .chitchatR kind
    else if CHITCHAT_TRIGGERS.contains (pyStrip t) then
      .chitchatR "simple"
    else
      .factsR (String.mk (pyStripCharsL ( " ?!.").data text.data))

example : route_intent "plan a tour" = .itineraryR (some "Plan A Tour") none := by decide
example : route_intent "please make a trip plan" = .itineraryR none none := by decide
example : route_intent "tell me about sigiriya" = .factsR "sigiriya" := by decide
example : route_intent "yes" = .factsR "yes" := by decide
example : route_intent "hi" = .chitchatR "simple" := by decide
example : route_intent "plan a 3 hour tour in Kandy" =
    .itineraryR (some "Kandy") (some 180) := by decide
example : route_intent "plan a 3-hour tour in Kandy" =
    .itineraryR (some "Kandy") none := by decide

end Dlg

/-! ## `difflib` model: `SequenceMatcher.ratio` (Ratcliff–Obershelp) and
`get_close_matches` as the source uses them (short ASCII strings, so the
autojunk heuristic of `difflib` never triggers) -/

/-- Length of the common prefix of two character lists. -/
def commonPrefixLen : List Char → List Char → Nat
  | a :: as, b :: bs => if a = b then commonPrefixLen as bs + 1 else 0
  | _, _ => 0

/-- `find_longest_match` over whole lists: the longest matching block
`(i, j, k)` with `a.drop i` and `b.drop j` agreeing on `k` characters;
among maximal blocks the smallest `i`, then the smallest `j`, wins
(updates only on strictly larger `k` while scanning `i`, `j` ascending). -/
def bestBlock (a b : List Char) : Nat × Nat × Nat :=
  (List.range a.length).foldl (fun best i =>
    (List.range b.length).foldl (fun best j =>
      let k := commonPrefixLen (a.drop i) (b.drop j)
      if best.2.2 < k then (i, j, k) else best) best) (0, 0, 0)

/-- Total size of the matching blocks (`get_matching_blocks`): recurse left
and right of the longest match.  `fuel` bounds the recursion depth; each
level removes at least one character from each side of the split, so
`a.length + b.length + 1` is always enough. -/
def matchTotalGo : Nat → List Char → List Char → Nat
  | 0, _, _ => 0
  | Nat.succ fuel, a, b =>
    let ijk := bestBlock a b
    let i := ijk.1
    let j := ijk.2.1
    let k := ijk.2.2
    if k = 0 then 0
    else matchTotalGo fuel (a.take i) (b.take j) + k +
      matchTotalGo fuel (a.drop (i + k)) (b.drop (j + k))

/-- Total matched characters between `a` and `b`. -/
def matchTotal (a b : List Char) : Nat := matchTotalGo (a.length + b.length + 1) a b

/-- `SequenceMatcher.ratio()` as an exact positive fraction
`(numerator, denominator)`: `2 * M / (len(a) + len(b))`, and `1/1` when both
are empty. -/
def simPair (a b : List Char) : Nat × Nat :=
  let total := a.length + b.length
  if total = 0 then (1, 1) else (2 * matchTotal a b, total)

/-- `p ≤ q` on fractions with positive denominators. -/
def fracLE (p q : Nat × Nat) : Bool := p.1 * q.2 ≤ q.1 * p.2

/-- `p < q` on fractions with positive denominators. -/
def fracLT (p q : Nat × Nat) : Bool := p.1 * q.2 < q.1 * p.2

/-- `p = q` on fractions with positive denominators. -/
def fracEQ (p q : Nat × Nat) : Bool := p.1 * q.2 = q.1 * p.2

/-- Python `<` on strings: lexicographic by code point, a proper prefix
being smaller. -/
def strLtL : List Char → List Char → Bool
  | [], [] => false
  | [], _ :: _ => true
  | _ :: _, [] => false
  | a :: as, b :: bs => a.toNat < b.toNat || (a.toNat = b.toNat && strLtL as bs)

/-- The pairwise maximum of `heapq.nlargest(1, …)` over `(score, x)` pairs:
the larger by score (an exact fraction), ties broken towards the
lexicographically larger string. -/
def pickBetter (best : Option ((Nat × Nat) × String)) (p : (Nat × Nat) × String) :
    Option ((Nat × Nat) × String) :=
  match best with
  | none => some p
  | some q =>
    if fracLT q.1 p.1 || (fracEQ q.1 p.1 && strLtL q.2.data p.2.data) then some p
    else some q

/-- `difflib.get_close_matches(word, possibilities, n=1, cutoff)`: keep the
possibilities whose ratio (computed with `seq1 = x`, `seq2 = word`) reaches
the cutoff and return the largest by `(ratio, x)` — `heapq.nlargest` on
`(score, x)` pairs breaks score ties towards the lexicographically larger
string, which makes the result independent of the iteration order of the
Python set the caller passes.  The cutoff is an exact fraction. -/
def closeMatchBest (word : String) (possibilities : List String) (cutoff : Nat × Nat) :
    Option String :=
  let scored := possibilities.filterMap (fun x =>
    let r := simPair x.data word.data
    if fracLE cutoff r then some (r, x) else none)
  (scored.foldl pickBetter none).map (fun p => p.2)

example : simPair ( "kandy").data ( "kandi").data = (8, 10) := by decide

/-! ## `agents/ir_agent.py` (the copy in `old_system/`): the gazetteer lookup.
The data file `data/places.json` is not among the source files; `PLACES`
below is modelled from the spec (§6 gazetteer record shape; place names the
spec and the application's welcome text name).  The functions `_norm`,
`_best_match` and `lookup_place` are embedded from the source. -/

/-- A gazetteer record (spec §6: `{name, aliases[], city?, …, facts[]}`,
with the per-stop minutes of `data/build_json.py`). -/
structure PlaceEntry where
  name : String
  aliases : List String
  city : String
  facts : List String
  ticket : String
  stops : List (String × Nat)
deriving DecidableEq, Repr

/-- Modelled from the spec: the contents of `data/places.json` are not in the
source tree.  Canonical places named by the spec and the welcome/suggestion
texts (Sigiriya, Kandy, Galle, Ella, Colombo), each with aliases, a few
facts, a ticket line and a nonempty stop list, in the record shape of §6. -/
def PLACES : List PlaceEntry :=
  [ { name := "Sigiriya", aliases := [ "Lion Rock", "Sigiriya Rock" ],
      city := "Dambulla",
      facts := [ "Ancient rock fortress", "UNESCO World Heritage site" ],
      ticket := "USD 30 for foreign visitors",
      stops := [ ( "Sigiriya Rock Fortress", 120 ), ( "Sigiriya Museum", 45 ) ] },
    { name := "Kandy", aliases := [ "Maha Nuwara" ],
      city := "Kandy",
      facts := [ "Cultural capital", "Home of the Temple of the Tooth" ],
      ticket := "Varies by site",
      stops := [ ( "Temple of the Tooth", 60 ), ( "Kandy Lake", 40 ),
        ( "Royal Botanical Gardens", 90 ) ] },
    { name := "Galle", aliases := [ "Galle Fort" ],
      city := "Galle",
      facts := [ "Dutch colonial fort city", "UNESCO World Heritage site" ],
      ticket := "Fort entry free",
      stops := [ ( "Galle Fort", 90 ), ( "Galle Lighthouse", 30 ) ] },
    { name := "Ella", aliases := [ "Ella Gap" ],
      city := "Ella",
      facts := [ "Hill country town", "Hiking and tea country" ],
      ticket := "Free",
      stops := [ ( "Little Adams Peak", 90 ), ( "Nine Arches Bridge", 60 ) ] },
    { name := "Colombo", aliases := [ "Colombo City" ],
      city := "Colombo",
      facts := [ "Commercial capital", "Ocean-front promenade" ],
      ticket := "Free",
      stops := [ ( "Galle Face Green", 45 ), ( "Gangaramaya Temple", 60 ) ] } ]

/-- `_norm(s)`: lowercase, replace each run of characters outside `[a-z0-9]`
by one space (`prevSep` records whether the current run already emitted its
space), then strip. -/
def normRunsGo (prevSep : Bool) : List Char → List Char
  | [] => []
  | c :: cs =>
    if isLowerCh c || isDigitCh c then c :: normRunsGo false cs
    else if prevSep then normRunsGo true cs
    else ' ' :: normRunsGo true cs

/-- `_norm(s)` on a string. -/
def normS (s : String) : String :=
  String.mk (pyStripL (normRunsGo false (lowerL s.data)))

/-- `_best_match(q)`: exact / substring match of the normalised query against
every key (name and aliases, in gazetteer order), else
`difflib.get_close_matches` over the normalised names at cutoff `0.6`
(an exact `3/5`; the source compares floats, which only differs within one
ulp of the cutoff and affects no value computed in this development),
mapping the winner back through the last gazetteer key with that
normalisation (the `dict` comprehension keeps the last). -/
def best_match (q : String) : Option String :=
  if q = "" then none
  else
    let qn := normS q
    match PLACES.find? (fun p => (p.name :: p.aliases).any (fun k =>
        let kn := normS k
        qn = kn || containsSub kn qn || containsSub qn kn)) with
    | some p => some p.name
    | none =>
      match closeMatchBest qn (PLACES.map (fun p => normS p.name)) (3, 5) with
      | some c =>
        ((PLACES.map (fun p => (normS p.name, p.name))).reverse.find?
          (fun pr => pr.1 = c)).map (fun pr => pr.2)
      | none => none

/-- `lookup_place(place)`: resolve through `_best_match` and return the
record (the source copies its fields, `facts` capped at six). -/
def lookup_place (place : String) : Option PlaceEntry :=
  (best_match place).bind (fun n =>
    (PLACES.find? (fun p => p.name = n)).map (fun p => { p with facts := p.facts.take 6 }))

example : (lookup_place "sigiriya").map (fun p => p.name) = some "Sigiriya" := by decide
example : (lookup_place "kandy").map (fun p => p.name) = some "Kandy" := by decide

/-- Modelled from the spec: `agents/itinerary_agent.py` is not among the
source files.  Per §4.5/§6, `plan(city, minutes)` is a response builder that
resolves the city against the gazetteer and assembles a structured itinerary
(city, stops, planned and total minutes); it returns nothing for an unknown
city. -/
structure PlanRes where
  city : String
  stops : List (String × Nat)
  planned_minutes : Nat
  total_minutes : Nat
deriving DecidableEq, Repr

/-- Modelled from the spec: the itinerary builder (see `PlanRes`). -/
def plan (city : String) (minutes : Nat) : Option PlanRes :=
  match lookup_place city with
  | none => none
  | some e =>
    some { city := e.name, stops := e.stops,
           planned_minutes := (e.stops.map (fun s => s.2)).sum,
           total_minutes := minutes }

/-! ## `agents/smart_guide.py`: query normalisation, the trip-planning stage
of `_analyze_query`, and fuzzy place correction -/

namespace SG

/-- The hard-coded `known_sri_lanka_places` set literal, in source order with
its duplicated entries kept (the Python set collapses them; membership and
the maximum over the list are unaffected).  The optional merge from
`data/sri_lanka_places.csv` is modelled as absent: that data file is not
among the source files and its load is guarded by an existence check. -/
def knownSriLankaPlaces : List String :=
  [ "colombo", "kandy", "galle", "jaffna", "anuradhapura", "polonnaruwa", "dambulla",
    "sigiriya", "trincomalee", "nuwara eliya", "ella", "negombo", "batticaloa",
    "kurunegala", "ratnapura", "bentota", "mirissa", "unawatuna", "hikkaduwa",
    "arugam bay", "kalpitiya", "matara", "badulla", "kurunagala", "hambantota",
    "puttalam", "vavuniya", "mannar", "kilinochchi", "mullaitivu", "matale",
    "kegalle", "monaragala", "ampara", "trinco", "gampaha", "kalutara", "kegalle",
    "matale", "gampola", "hatton", "haputale", "bandarawela", "weligama", "tangalle",
    "beruwala", "panadura", "moratuwa", "dehiwala", "maharagama", "avissawella" ]

/-- `_fuzzy_correct_place(name)`: strip and lowercase, try a direct hit in
the known places, then `difflib.get_close_matches(candidate, places, n=1,
cutoff=0.75)` (the cutoff `0.75` is exactly representable, so the exact
fraction `3/4` models the float comparison), else return the candidate. -/
def fuzzy_correct_place (name : String) : String :=
  if name = "" then name
  else
    let candidate := lowerS (pyStrip name)
    if knownSriLankaPlaces.contains candidate then candidate
    else
      match closeMatchBest candidate knownSriLankaPlaces (3, 4) with
      | some m => m
      | none => candidate

example : fuzzy_correct_place "kandi" = "kandy" := by decide
example : fuzzy_correct_place "xyzzynotaplace" = "xyzzynotaplace" := by decide

/-- The `spelling_corrections` table of `_normalize_query`, in source order. -/
def spellingCorrections : List (String × String) :=
  [ ( "columbo", "colombo" ), ( "kandi", "kandy" ), ( "candy", "kandy" ),
    ( "sigiri", "sigiriya" ), ( "gale", "galle" ), ( "negambo", "negombo" ),
    ( "anuradapura", "anuradhapura" ), ( "polonnaruwa", "polonnaruwa" ),
    ( "trincomalee", "trincomalee" ), ( "nuwara", "nuwara eliya" ),
    ( "nuwara eliya", "nuwara eliya" ), ( "dambulla", "dambulla" ),
    ( "bentota", "bentota" ), ( "mirissa", "mirissa" ),
    ( "unawatuna", "unawatuna" ), ( "ella", "ella" ), ( "jaffna", "jaffna" ),
    ( "batticaloa", "batticaloa" ), ( "kurunegala", "kurunegala" ),
    ( "ratnapura", "ratnapura" ) ]

/-- `_normalize_query(query)`: lowercase and strip, then apply each spelling
correction (a substring replace) in table order when its misspelling occurs. -/
def normalize_query (query : String) : String :=
  let q0 := pyStrip (lowerS query)
  spellingCorrections.foldl (fun q mc =>
    if containsSub q mc.1 then String.mk (replaceAll mc.1.data mc.2.data q.data) else q) q0

/-- `\s+` at a position: at least one whitespace character, greedily. -/
def munchSpaces1 (l : List Char) : Option (List Char) :=
  if (l.takeWhile isSpaceCh).isEmpty then none else some (l.dropWhile isSpaceCh)

/-- A literal at a position. -/
def litTok (s : String) (l : List Char) : Option (List Char) :=
  if litPre s l then some (l.drop s.length) else none

/-- `(\d+)` at a position, greedily. -/
def munchDigits1 (l : List Char) : Option (List Char × List Char) :=
  let d := l.takeWhile isDigitCh
  if d.isEmpty then none else some (d, l.dropWhile isDigitCh)

/-- `(\w+)` at a position, greedily. -/
def munchWord1 (l : List Char) : Option (List Char × List Char) :=
  let w := l.takeWhile isWordCh
  if w.isEmpty then none else some (w, l.dropWhile isWordCh)

/-- `(?:to\s+)?(\w+)` at the end of a pattern: the greedy optional group
first; if no word follows it, the regex falls back to matching `(\w+)`
without the group (the only backtracking the tail patterns can need, since
`(\w+)` is final and unconstrained). -/
def toWordEnd (l : List Char) : Option (List Char) :=
  match (litTok "to" l).bind munchSpaces1 with
  | some r =>
    match munchWord1 r with
    | some wr => some wr.1
    | none => (munchWord1 l).map (fun wr => wr.1)
  | none => (munchWord1 l).map (fun wr => wr.1)

/-- `plan\s+a\s+(\d+)\s+hour\s+trip\s+(?:to\s+)?(\w+)` at one position.
All interior token boundaries separate disjoint character classes, so
greedy maximal munch is exact. -/
def trip1At (l : List Char) : Option (List Char × List Char) :=
  (litTok "plan" l).bind fun r => (munchSpaces1 r).bind fun r =>
  (litTok "a" r).bind fun r => (munchSpaces1 r).bind fun r =>
  (munchDigits1 r).bind fun dr => (munchSpaces1 dr.2).bind fun r =>
  (litTok "hour" r).bind fun r => (munchSpaces1 r).bind fun r =>
  (litTok "trip" r).bind fun r => (munchSpaces1 r).bind fun r =>
  (toWordEnd r).map fun w => (dr.1, w)

/-- `plan\s+a\s+(\d+)\s+day\s+trip\s+(?:to\s+)?(\w+)` at one position. -/
def trip2At (l : List Char) : Option (List Char × List Char) :=
  (litTok "plan" l).bind fun r => (munchSpaces1 r).bind fun r =>
  (litTok "a" r).bind fun r => (munchSpaces1 r).bind fun r =>
  (munchDigits1 r).bind fun dr => (munchSpaces1 dr.2).bind fun r =>
  (litTok "day" r).bind fun r => (munchSpaces1 r).bind fun r =>
  (litTok "trip" r).bind fun r => (munchSpaces1 r).bind fun r =>
  (toWordEnd r).map fun w => (dr.1, w)

/-- `(\d+)\s+hour\s+trip\s+(?:to\s+)?(\w+)` at one position. -/
def trip3At (l : List Char) : Option (List Char × List Char) :=
  (munchDigits1 l).bind fun dr => (munchSpaces1 dr.2).bind fun r =>
  (litTok "hour" r).bind fun r => (munchSpaces1 r).bind fun r =>
  (litTok "trip" r).bind fun r => (munchSpaces1 r).bind fun r =>
  (toWordEnd r).map fun w => (dr.1, w)

/-- `(\d+)\s+day\s+trip\s+(?:to\s+)?(\w+)` at one position. -/
def trip4At (l : List Char) : Option (List Char × List Char) :=
  (munchDigits1 l).bind fun dr => (munchSpaces1 dr.2).bind fun r =>
  (litTok "day" r).bind fun r => (munchSpaces1 r).bind fun r =>
  (litTok "trip" r).bind fun r => (munchSpaces1 r).bind fun r =>
  (toWordEnd r).map fun w => (dr.1, w)

/-- `hours?|days?` of the fifth trip pattern at a position. -/
def hourDayUnitAt (l : List Char) : Bool :=
  litPre "hours" l || litPre "hour" l || litPre "days" l || litPre "day" l

/-- The continuation `\s+for\s+(\d+)\s+(?:hours?|days?)` of the fifth trip
pattern, applied after a candidate `(\w+)` capture. -/
def trip5Cont (w rest : List Char) : Option (List Char × List Char) :=
  (munchSpaces1 rest).bind fun r => (litTok "for" r).bind fun r =>
  (munchSpaces1 r).bind fun r => (munchDigits1 r).bind fun dr =>
  (munchSpaces1 dr.2).bind fun r =>
  if hourDayUnitAt r then some (w, dr.1) else none

/-- Backtracking `(\w+)` followed by a continuation: try the greedy capture,
then shrink it from the right (the regex engine's backtracking into the
group), requiring at least one character.  `fuel = w.length` is exact. -/
def shrinkWordGo (cont : List Char → List Char → Option (List Char × List Char)) :
    Nat → List Char → List Char → Option (List Char × List Char)
  | 0, _, _ => none
  | Nat.succ fuel, w, rest =>
    match w with
    | [] => none
    | e :: es =>
      match cont (e :: es) rest with
      | some r => some r
      | none =>
        shrinkWordGo cont fuel (e :: es).dropLast ((e :: es).getLast (by simp) :: rest)

/-- `trip\s+(?:to\s+)?(\w+)\s+for\s+(\d+)\s+(?:hours?|days?)` at one
position; the optional `to\s+` is tried first, and the `(\w+)` capture may
backtrack because `\s+for` follows it.  Returns `(group 1, group 2)` —
note group 1 is the *word* and group 2 the digits in this pattern. -/
def trip5At (l : List Char) : Option (List Char × List Char) :=
  (litTok "trip" l).bind fun r => (munchSpaces1 r).bind fun r =>
  let withTo :=
    ((litTok "to" r).bind munchSpaces1).bind fun r2 =>
      (munchWord1 r2).bind fun wr => shrinkWordGo trip5Cont wr.1.length wr.1 wr.2
  match withTo with
  | some res => some res
  | none =>
    (munchWord1 r).bind fun wr => shrinkWordGo trip5Cont wr.1.length wr.1 wr.2

/-- The result of the trip-planning stage: the extracted
`{"duration": …, "city": …}` slots, or the `ValueError` that
`int(match.group(1))` raises when the fifth pattern captured a non-numeric
word in group 1. -/
inductive TripParse : Type
  | planned (duration : Nat) (city : String)
  | intErr
deriving DecidableEq, Repr

/-- Day-unit conversion of `_analyze_query`: `if 'day' in query: duration *= 24`
(the *whole* normalised query is tested for the substring `day`). -/
def tripFinish (q : String) (d : Nat) (w : List Char) : TripParse :=
  .planned (if containsSub q "day" then d * 24 else d) (String.mk w)

/-- The trip-planning stage of `_analyze_query` (`smart_guide.py` lines
88–105): normalise the query, search the five `trip_patterns` in order, and
on the first match return `("trip_planning", {"duration": …, "city": …})`
with days converted to hours (`duration *= 24`).  `_analyze_query` returns
this stage's result whenever it is `some`; the later cascade stages run only
on `none`.  For the fifth pattern `int(group(1))` is applied to the captured
word: modelled as a value when the capture is all digits and as the raised
`ValueError` otherwise (Python's tolerance for `_` digit separators inside
`int()` is not modelled; no input considered here contains one). -/
def analyze_query_trip (query : String) : Option TripParse :=
  let q := normalize_query query
  let l := q.data
  match reSearch trip1At l with
  | some dw => some (tripFinish q (digitsToNat dw.1) dw.2)
  | none =>
  match reSearch trip2At l with
  | some dw => some (tripFinish q (digitsToNat dw.1) dw.2)
  | none =>
  match reSearch trip3At l with
  | some dw => some (tripFinish q (digitsToNat dw.1) dw.2)
  | none =>
  match reSearch trip4At l with
  | some dw => some (tripFinish q (digitsToNat dw.1) dw.2)
  | none =>
  match reSearch trip5At l with
  | some wd =>
    if wd.1 ≠ [] && wd.1.all isDigitCh then
      some (tripFinish q (digitsToNat wd.1) wd.2)
    else some .intErr
  | none => none

example : analyze_query_trip "plan a 2 day trip to galle" =
    some (.planned 48 "galle") := by decide
example : analyze_query_trip "plan a 3 hour trip to kandy" =
    some (.planned 3 "kandy") := by decide
example : analyze_query_trip "weather in kandy" = none := by decide

end SG

/-! ## `agents/simple_safety.py`: the whole-word banned-term screen used by
`SmartGuide.process_query` -/

namespace SimpleSafety

/-- `\b` before a pattern: the boundary between the previous character (none
at the start of the string) and the pattern's first character. -/
def boundaryBefore (prev : Option Char) (pat : List Char) : Bool :=
  match pat with
  | [] => true
  | c :: _ =>
    (match prev with
     | none => false
     | some p => isWordCh p) != isWordCh c

/-- `\b` after a pattern matched at the head of `l`. -/
def boundaryAfterPat (pat l : List Char) : Bool :=
  match pat.getLast? with
  | none => true
  | some lastC => Dlg.wordBoundaryAfter lastC (l.drop pat.length)

/-- `re.search(r"\b" + re.escape(pat) + r"\b", text)` as a boolean: scan for
an occurrence of the literal `pat` with word boundaries on both sides
(`prev` is the character before the current position). -/
def wordSearchGo (pat : List Char) (prev : Option Char) : List Char → Bool
  | [] => false
  | c :: cs =>
    (boundaryBefore prev pat && pat.isPrefixOf (c :: cs) &&
      boundaryAfterPat pat (c :: cs)) ||
    wordSearchGo pat (some c) cs

/-- Whole-word search of a nonempty literal pattern. -/
def wordSearch (pat : String) (l : List Char) : Bool := wordSearchGo pat.data none l

/-- `re.sub(r"\b" + pat + r"\b", rep, text)`: replace every non-overlapping
whole-word occurrence, scanning the original text left to right (the
replacement is not rescanned by the same call).  `fuel = l.length` is exact:
each step consumes at least one input character. -/
def subWordGo (pat rep : List Char) (prev : Option Char) : Nat → List Char → List Char
  | _, [] => []
  | 0, l => l
  | Nat.succ fuel, c :: cs =>
    if boundaryBefore prev pat && pat.isPrefixOf (c :: cs) &&
        boundaryAfterPat pat (c :: cs) then
      rep ++ subWordGo pat rep pat.getLast? fuel ((c :: cs).drop pat.length)
    else c :: subWordGo pat rep (some c) fuel cs

/-- Whole-word substitution of a nonempty literal pattern. -/
def subWord (pat rep : String) (l : List Char) : List Char :=
  subWordGo pat.data rep.data none l.length l

/-- `SHORT_FORMS` in source (dict literal) order. -/
def SHORT_FORMS : List (String × String) :=
  [ ( "wtf", "what the fuck" ), ( "stfu", "shut the fuck up" ),
    ( "fml", "fuck my life" ), ( "smh", "shaking my head" ),
    ( "gtfo", "get the fuck out" ), ( "bs", "bullshit" ),
    ( "pos", "piece of shit" ), ( "sob", "son of a bitch" ),
    ( "omfg", "oh my fucking god" ), ( "af", "as fuck" ),
    ( "mf", "motherfucker" ), ( "btch", "bitch" ), ( "fck", "fuck" ),
    ( "sht", "shit" ), ( "dm", "damn" ) ]

/-- `_expand_short_forms(text)`: apply each short-form substitution in table
order, each pass rescanning the text produced by the previous one. -/
def expand_short_forms (l : List Char) : List Char :=
  SHORT_FORMS.foldl (fun t sf => subWord sf.1 sf.2 t) l

/-- `CORE_BANNED_WORDS` in the order of the source set literal, duplicates
kept as written (the Python set collapses them; neither membership nor the
first-match scan below is affected). -/
def CORE_BANNED_WORDS : List String :=
  [ "kill", "murder", "suicide", "bomb", "terror", "attack", "violence", "harm",
    "fuck", "shit", "damn", "bitch", "asshole", "bastard", "crap", "piss",
    "bullshit", "fucking",
    "nigger", "faggot", "retard", "whore", "slut",
    "suicide", "self-harm", "cut", "hurt" ]

/-- `MISSPELLINGS_AND_VARIATIONS` in source (dict literal) order. -/
def MISSPELLINGS_AND_VARIATIONS : List (String × List String) :=
  [ ( "kill", [ "kil", "k1ll", "k!ll", "k1l", "k!l" ] ),
    ( "murder", [ "murd3r", "murd3r", "murderer", "murd3rer" ] ),
    ( "bomb", [ "b0mb", "b0m", "bom" ] ),
    ( "attack", [ "attak", "atak", "attac" ] ),
    ( "fuck", [ "fuk", "f*ck", "fck", "fukc", "phuck", "f*ck", "fck", "fukc",
      "f0ck", "fck" ] ),
    ( "shit", [ "sh*t", "sht", "sh1t", "sh!t", "sht", "sh1t" ] ),
    ( "damn", [ "dam", "d*mn", "damn", "damn" ] ),
    ( "bitch", [ "b*tch", "btch", "b1tch", "b!tch" ] ),
    ( "asshole", [ "ashole", "ash*le", "assh0le", "assh*le" ] ),
    ( "bastard", [ "bast*rd", "bastrd", "bastard" ] ),
    ( "crap", [ "cr*p", "crp", "crapp" ] ),
    ( "piss", [ "p*ss", "pss", "pissed" ] ),
    ( "nigger", [ "n*gger", "ngger", "n1gger", "n!gger" ] ),
    ( "faggot", [ "f*ggot", "fggot", "fagot", "fagg0t" ] ),
    ( "retard", [ "ret*rd", "retrd", "retard" ] ),
    ( "whore", [ "wh*re", "whre", "wh0re" ] ),
    ( "slut", [ "sl*t", "slt", "sl1t" ] ),
    ( "suicide", [ "sucide", "suc1de", "su!cide" ] ),
    ( "hurt", [ "hrt", "h*rt", "hurts" ] ),
    ( "cut", [ "c*t", "ct", "cuts" ] ) ]

/-- `check_input(text)` of `simple_safety.py`: expand short forms, then scan
for core banned words as whole words, then for the misspelling table (base
word or any variation, whole words), then for the short forms themselves
(category `"profanity"`). -/
def check_input (text : String) : Bool × String :=
  if text = "" then (true, "")
  else
    let tl := pyStrip (lowerS text)
    let expanded := expand_short_forms tl.data
    match CORE_BANNED_WORDS.find? (fun w => wordSearch w expanded) with
    | some w => (false, w)
    | none =>
      match MISSPELLINGS_AND_VARIATIONS.find? (fun bv =>
          wordSearch bv.1 expanded || bv.2.any (fun v => wordSearch v expanded)) with
      | some bv => (false, bv.1)
      | none =>
        if SHORT_FORMS.any (fun sf => wordSearch sf.1 expanded) then (false, "profanity")
        else (true, "")

/-- The banned words with a specific entry in `VIOLATION_RESPONSES`. -/
def responseKeys : List String :=
  [ "kill", "murder", "fuck", "shit", "violence", "hate" ]

/-- `get_violation_response(text)` reduced to the key of the canned response
it selects: the first core banned word contained (as a substring) in the
lowercased text, when that word has its own response template, else
`"default"`. -/
def violation_response_key (text : String) : String :=
  let tl := lowerS text
  match CORE_BANNED_WORDS.find? (fun w => containsSub tl w) with
  | some w => if responseKeys.contains w then w else "default"
  | none => "default"

example : check_input "kill" = (false, "kill") := by decide
example : check_input "skillful travel" = (true, "") := by decide
example : check_input "wtf is this" = (false, "fuck") := by decide
example : check_input "plan a trip to kandy" = (true, "") := by decide

end SimpleSafety

/-! ## `SmartGuide.process_query`: the safety gate in front of the analysis
and response generation, and the conversation history it appends to.
`_analyze_query`/`_generate_response` call external services (Google APIs,
Wikipedia), so the non-blocked response computation is a parameter `gen`;
the history entry drops the wall-clock timestamp. -/

namespace SG

/-- The agent's mutable state: `conversation_history`, a list of
`(user query, response)` entries. -/
structure GuideState (α : Type) where
  conversation_history : List (String × α)
deriving DecidableEq, Repr

/-- The result of `process_query`: a safety-violation response (carrying the
key of the canned violation text, with `blocked = True`), or the generated
response. -/
inductive SGOut (α : Type) : Type
  | safetyViolation (respKey : String)
  | answered (r : α)
deriving DecidableEq, Repr

/-- `process_query(user_query)`: run the safety check first and return the
violation response without touching any state when it fails; otherwise
generate a response (a parameter here) and append
`{"user": user_query, "response": response}` to `conversation_history`. -/
def process_query {α : Type} (gen : String → α) (st : GuideState α) (q : String) :
    SGOut α × GuideState α :=
  match SimpleSafety.check_input q with
  | (false, _) => (.safetyViolation (SimpleSafety.violation_response_key q), st)
  | (true, _) =>
    let r := gen q
    (.answered r, { conversation_history := st.conversation_history ++ [ (q, r) ] })

/-- `clear_history()` of `SmartGuide`. -/
def clear_history {α : Type} (_ : GuideState α) : GuideState α :=
  { conversation_history := [] }

end SG

/-! ## Shared pieces of the substring-based safety agents -/

/-- Boolean leftmost search: whether the matcher succeeds at any position. -/
def searchB (m : List Char → Bool) : List Char → Bool
  | [] => m []
  | c :: cs => m (c :: cs) || searchB m cs

/-- The raw-HTML-tag pattern `<\s*\/?\s*[a-z][a-z0-9\-]*\s*[^>]*>` (with
`re.I`, applied here to lowercased text) at one position.  After the leading
letter, `[a-z0-9\-]*\s*[^>]*>` consumes everything up to, and then matches,
the next `>`; so the tail succeeds exactly when a `>` occurs later. -/
def htmlTagAt (l : List Char) : Bool :=
  match l with
  | '<' :: r =>
    let r1 := r.dropWhile isSpaceCh
    let r2 :=
      match r1 with
      | '/' :: rr => rr
      | _ => r1
    let r3 := r2.dropWhile isSpaceCh
    (match r3 with
     | c :: rest => isAlphaCh c && rest.contains '>'
     | [] => false)
  | _ => false

/-- A literal, an optional (`\s*`) or required (`\s+`) whitespace gap, and a
second literal, at one position (the shape of the JS/SQL patterns). -/
def litGapLit (a b : String) (oneOrMore : Bool) (l : List Char) : Bool :=
  litPre a l &&
    (let r := l.drop a.length
     (!oneOrMore || !(r.takeWhile isSpaceCh).isEmpty) &&
     litPre b (r.dropWhile isSpaceCh))

/-- `on\w+\s*=` at one position. -/
def onAttrAt (l : List Char) : Bool :=
  litPre "on" l &&
    (let r := l.drop 2
     let w := r.takeWhile isWordCh
     !w.isEmpty &&
       (match (r.dropWhile isWordCh).dropWhile isSpaceCh with
        | '=' :: _ => true
        | _ => false))

/-! ## `irwa-tour/agents/safety_agent.py`: the narrow banned-substring screen
and `sanitize` used by the `/chat` route.  The `better_profanity` dictionary
is an external library, not code of this repository: it is a parameter
`prof` of `check_input` (the spec treats it as an opaque catch-all
dictionary check). -/

namespace IrwaSafety

/-- `BANNED_SUBSTRINGS` of the irwa-tour safety agent, in the order of the
source set literal. -/
def BANNED_SUBSTRINGS : List String :=
  [ "kill", "harm", "bomb", "terror", "suicide", "murder", "die", "death",
    "fuck", "shit", "damn", "hell", "bitch", "asshole", "bastard", "crap",
    "hack", "ddos", "phish", "malware", "ransomware",
    "password dump", "credit card", "steal",
    "meth", "cocaine",
    "rm -rf", "drop table", "union select", "exec(", "system(", "xp_cmdshell",
    "<script", "</script" ]

/-- `_contains_banned(text)`: the first banned substring contained in the
lowercased text, else `""`. -/
def contains_banned (text : String) : String :=
  let t := lowerS text
  match BANNED_SUBSTRINGS.find? (fun b => containsSub t b) with
  | some b => b
  | none => ""

/-- `check_input(text)` of the irwa-tour safety agent: the profanity
dictionary first, then banned substrings, then the raw-HTML-tag pattern
(guarded by the presence of an angle bracket). -/
def check_input (prof : String → Bool) (text : String) : Bool × String :=
  if prof text then (false, "profanity")
  else
    let bad := contains_banned text
    if bad ≠ "" then (false, bad)
    else if (containsSub text "<" || containsSub text ">") &&
        searchB htmlTagAt (lowerS text).data then (false, "raw_html_tag")
    else (true, "")

/-- Whitespace-run collapsing of `sanitize` (`re.sub(r"\s+", " ", …)`). -/
def collapseWsGo (prevSep : Bool) : List Char → List Char
  | [] => []
  | c :: cs =>
    if isSpaceCh c then
      if prevSep then collapseWsGo true cs else ' ' :: collapseWsGo true cs
    else c :: collapseWsGo false cs

/-- `sanitize(text)`: drop angle brackets, collapse whitespace runs to one
space, strip, cap at 2000 characters. -/
def sanitize (text : String) : String :=
  let noAngles := text.data.filter (fun c => c ≠ '<' && c ≠ '>')
  String.mk ((pyStripL (collapseWsGo false noAngles)).take 2000)

example : sanitize "  kandy  " = "kandy" := by decide
example : sanitize "2<h" = "2h" := by decide

end IrwaSafety

/-! ## `src/agents/safety_agent.py`: the full banned-substring screen with
variation tables, HTML/JS/SQL pattern checks and the statistical checks.
As above, the external `better_profanity` dictionary is the parameter
`prof`. -/

namespace SafetyAgent

/-- `BANNED_SUBSTRINGS` in the order of the source set literal, duplicates
kept as written (the Python set collapses them; membership and the
first-match scan are unaffected). -/
def BANNED_SUBSTRINGS : List String :=
  [ "kill", "harm", "bomb", "terror", "suicide", "murder", "die", "death",
    "violence", "attack", "assault", "weapon", "gun", "knife", "fight",
    "destroy", "damage", "hurt", "injure", "wound", "bleed", "blood",
    "fuck", "shit", "damn", "hell", "bitch", "asshole", "bastard", "crap",
    "fucking", "shitty", "damned", "hellish", "bitchy", "crap", "piss",
    "dick", "cock", "pussy", "whore", "slut", "faggot", "nigger", "retard",
    "hack", "ddos", "phish", "malware", "ransomware", "virus", "trojan",
    "password dump", "credit card", "steal", "fraud", "scam", "exploit",
    "inject", "bypass", "crack", "brute force", "social engineering",
    "meth", "cocaine", "heroin", "marijuana", "weed", "drugs", "pills",
    "overdose", "addiction", "dealer", "smuggling",
    "rm -rf", "drop table", "union select", "exec(", "system(", "xp_cmdshell",
    "sql injection", "xss", "csrf", "buffer overflow", "privilege escalation",
    "<script", "</script", "javascript:", "onclick", "onload", "onerror",
    "iframe", "object", "embed",
    "sex", "porn", "nude", "naked", "breast", "penis", "vagina", "orgasm",
    "masturbat", "fuck", "fucking", "screw", "bang", "hooker", "prostitute",
    "prostitution", "escort", "brothel", "strip club", "adult entertainment",
    "sexual services", "sex worker", "massage parlor", "red light district",
    "racist", "sexist", "homophobic", "transphobic", "discriminat", "prejudice",
    "hate", "bigot", "supremacist", "nazi", "fascist", "terrorist",
    "suicide", "self-harm", "cut", "bleed", "hang", "overdose", "poison",
    "depression", "anxiety", "panic", "trauma", "ptsd", "mental illness" ]

/-- The `variations` table of `_contains_banned`, in dict-literal order (the
duplicated `suicide` key keeps its first position; its value is the same
list both times). -/
def VARIATIONS : List (String × List String) :=
  [ ( "fuck", [ "f*ck", "f**k", "f***", "fuk", "fuking", "fucking", "fucked",
      "fucker", "fucking", "fucks" ] ),
    ( "shit", [ "sh*t", "sh**", "sht", "shitting", "shitted", "shitter", "shits" ] ),
    ( "damn", [ "d*mn", "d**n", "damned", "damning", "damns" ] ),
    ( "hell", [ "h*ll", "h**l", "hellish", "hells" ] ),
    ( "bitch", [ "b*tch", "b**ch", "bitchy", "bitches", "bitching" ] ),
    ( "asshole", [ "a**hole", "a**h*le", "assh*le", "assholes" ] ),
    ( "bastard", [ "b*stard", "b**tard", "basted", "bastards" ] ),
    ( "crap", [ "cr*p", "cr**", "craps", "crapping" ] ),
    ( "piss", [ "p*ss", "p**s", "pissing", "pissed", "pisses" ] ),
    ( "kill", [ "k*ll", "k**l", "killing", "killed", "killer", "kills" ] ),
    ( "murder", [ "m*rder", "m**der", "murdered", "murdering", "murderer",
      "murders" ] ),
    ( "suicide", [ "s*cide", "s**cide", "suicidal", "suicides" ] ),
    ( "bomb", [ "b*mb", "b**b", "bombing", "bombed", "bomber", "bombs" ] ),
    ( "terror", [ "t*rror", "t**ror", "terrorist", "terrorism", "terrorists" ] ),
    ( "harm", [ "h*rm", "h**m", "harming", "harmed", "harms" ] ),
    ( "violence", [ "v*olence", "v**lence", "violent", "violently" ] ),
    ( "attack", [ "att*ck", "att**k", "attacking", "attacked", "attacker",
      "attacks" ] ),
    ( "hack", [ "h*ck", "h**k", "hacking", "hacked", "hacker", "hacks" ] ),
    ( "malware", [ "m*lware", "m**ware", "malwares" ] ),
    ( "virus", [ "v*rus", "v**us", "viruses" ] ),
    ( "phish", [ "ph*sh", "ph**h", "phishing", "phished", "phisher" ] ),
    ( "steal", [ "st*al", "st**l", "stealing", "stolen", "stealer", "steals" ] ),
    ( "drugs", [ "dr*gs", "dr**s", "drugged", "drugging", "druggie",
      "druggies" ] ),
    ( "cocaine", [ "c*caine", "c**aine", "cocaines" ] ),
    ( "meth", [ "m*th", "m**h", "meths" ] ),
    ( "heroin", [ "h*roin", "h**oin", "heroins" ] ),
    ( "marijuana", [ "m*r*juana", "m**juana", "marijuanas" ] ),
    ( "weed", [ "w*ed", "w**d", "weeds" ] ),
    ( "sex", [ "s*x", "s**", "sexual", "sexually", "sexes", "sexing" ] ),
    ( "porn", [ "p*rn", "p**n", "pornographic", "pornography", "porns" ] ),
    ( "prostitution", [ "pr*stitution", "pr**stitution", "prostitutions" ] ),
    ( "prostitute", [ "pr*stitute", "pr**stitute", "prostitutes",
      "prostituting" ] ),
    ( "escort", [ "esc*rt", "esc**t", "escorts", "escorting" ] ),
    ( "brothel", [ "br*thel", "br**thel", "brothels" ] ),
    ( "hooker", [ "h*oker", "h**ker", "hookers" ] ),
    ( "racist", [ "r*cist", "r**cist", "racism", "racially", "racists" ] ),
    ( "hate", [ "h*te", "h**e", "hating", "hated", "hateful", "hates" ] ),
    ( "nazi", [ "n*zi", "n**i", "nazis" ] ),
    ( "fascist", [ "f*scist", "f**cist", "fascists", "fascism" ] ),
    ( "self-harm", [ "s*lf-h*rm", "s**f-h**m", "self-harming", "self-harmed" ] ),
    ( "depression", [ "d*pression", "d**pression", "depressed", "depressing",
      "depressions" ] ) ]

/-- `_contains_banned(text)`: first the exact banned substrings, then the
variation table (base word or any variant, substring containment), returning
the base word; else `""`. -/
def contains_banned (text : String) : String :=
  match BANNED_SUBSTRINGS.find? (fun b => containsSub (lowerS text) b) with
  | some b => b
  | none =>
    match VARIATIONS.find? (fun bv =>
        containsSub (lowerS text) bv.1 ||
        bv.2.any (fun v => containsSub (lowerS text) v)) with
    | some bv => bv.1
    | none => ""

/-- The `js_patterns` loop (each pattern with `re.I`, so matched on the
lowercased text). -/
def jsFlag (text : String) : Bool :=
  let l := (lowerS text).data
  searchB (litGapLit "javascript" ":" false) l ||
  searchB onAttrAt l ||
  infixOf ( "<script").data l ||
  infixOf ( "</script").data l ||
  searchB (litGapLit "eval" "(" false) l ||
  infixOf ( "document.").data l ||
  infixOf ( "window.").data l ||
  searchB (litGapLit "alert" "(" false) l ||
  searchB (litGapLit "confirm" "(" false) l ||
  searchB (litGapLit "prompt" "(" false) l

/-- The `sql_patterns` loop. -/
def sqlFlag (text : String) : Bool :=
  let l := (lowerS text).data
  searchB (litGapLit "union" "select" true) l ||
  searchB (litGapLit "drop" "table" true) l ||
  searchB (litGapLit "delete" "from" true) l ||
  searchB (litGapLit "insert" "into" true) l ||
  searchB (litGapLit "update" "set" true) l ||
  searchB (litGapLit "exec" "(" false) l ||
  infixOf ( "xp_cmdshell").data l ||
  infixOf ( "sp_executesql").data l

/-- The excessive-repetition check: some word of `t.split()` occurs more
than five times (equivalent to the source's maximum over the count table). -/
def spamFlag (text : String) : Bool :=
  !(pySplitWs text.data).isEmpty &&
    (pySplitWs text.data).any (fun w => 5 < (pySplitWs text.data).count w)

/-- `check_input(text)` of `src/agents/safety_agent.py`: banned substrings
and variations first, then the profanity dictionary, the raw-HTML-tag
pattern, the JS patterns, the SQL patterns, the repetition check and the
length cap. -/
def check_input (prof : String → Bool) (text : String) : Bool × String :=
  if contains_banned text ≠ "" then (false, contains_banned text)
  else if prof text then (false, "profanity")
  else if (containsSub text "<" || containsSub text ">") &&
      searchB htmlTagAt (lowerS text).data then (false, "raw_html_tag")
  else if jsFlag text then (false, "script")
  else if sqlFlag text then (false, "sql injection")
  else if spamFlag text then (false, "spam")
  else if 5000 < text.length then (false, "excessive_length")
  else (true, "")

example : check_input (fun _ => false) "onmouseover=1" = (false, "script") := by decide
example : check_input (fun _ => false) "weather in kandy" = (true, "") := by decide
example : check_input (fun _ => false) "skillful" = (false, "kill") := by decide

end SafetyAgent

/-! ## `irwa-tour/app.py` `/chat`: the dialogue state machine over the
session.  The session keys are `pending`, `slots`, `last_place`,
`last_itinerary_city` (grouped in `DlgCore` — the `/chat` logic never reads
`history`, it only appends to it) and `history`.  Replies are modelled
structurally, one constructor per `respond(...)` site of the route, carrying
the data the reply text is built from; the cosmetic `polish_text` pass and
the `check_output` screen act on the rendered markdown only (no reply
constructor below can contain a script tag) and are not modelled.  Message
ids (`uuid4`) and timestamps are nondeterministic and are dropped from the
history entries.  `route_intent`/`parse_minutes` are embedded from
`old_system/dialogue_agent.py` (the module `agents/dialogue_agent.py` the
route imports is not among the source files; the old-system copy is the one
the claim sources cite). -/

namespace Chat

/-- The pending slot of the session (`session["pending"]`): `"city"` or
`"minutes"`; `none` models `None`. -/
inductive Pending : Type
  | city
  | minutes
deriving DecidableEq, Repr

/-- `session["slots"]`. -/
structure Slots where
  city : Option String := none
  minutes : Option Nat := none
deriving DecidableEq, Repr

/-- The dialogue part of the session. -/
structure DlgCore where
  pending : Option Pending := none
  slots : Slots := {}
  last_place : Option String := none
  last_itinerary_city : Option String := none
deriving DecidableEq, Repr

/-- One reply of the `/chat` route, one constructor per `respond(...)` site. -/
inductive Reply : Type
  | violation (category : String)
  | awaitMinutesPrompt (city : String)
  | reprompt
  | itinerary (city : String) (planned total : Nat) (stops : List (String × Nat))
  | planFail
  | welcome
  | chitchat (kind : String)
  | factsReply (place : String)
  | factsNotFound
  | awaitCityPrompt
  | ticketInfo (place : String)
  | transportTips (city : String)
  | diningRecs (city : String)
  | serverError
deriving DecidableEq, Repr

/-- A history entry (`who` and the message; ids and timestamps dropped). -/
inductive HistEntry : Type
  | user (text : String)
  | bot (r : Reply)
deriving DecidableEq, Repr

/-- The per-session state. -/
structure Session where
  dlg : DlgCore := {}
  history : List HistEntry := []
deriving DecidableEq, Repr

/-- Python truthiness of an optional string (`None` and `""` are falsy). -/
def truthyS : Option String → Bool
  | none => false
  | some s => s ≠ ""

/-- `confirm_words`. -/
def confirmWords : List String :=
  [ "yes", "yeah", "yep", "sure", "ok", "okay", "ya", "affirmative" ]

/-- The follow-up shortcut set. -/
def followupWords : List String :=
  [ "ticket info", "quick facts", "transportation tips",
    "local dining recommendations" ]

/-- The intent dispatch of the route (`help`/`chitchat`/`facts`/`itinerary`
branches after routing): reply plus updated dialogue state. -/
def dispatchIntent (d : DlgCore) (r : Dlg.Routed) : Reply × DlgCore :=
  match r with
  | .helpR => (.welcome, d)
  | .chitchatR kind => (.chitchat kind, d)
  | .factsR place =>
    (match lookup_place place with
     | none => (.factsNotFound, d)
     | some e => (.factsReply e.name, { d with last_place := some e.name }))
  | .itineraryR city minutes =>
    if !truthyS city then
      (.awaitCityPrompt, { d with pending := some .city, slots := {} })
    else
      let c := city.getD ""
      match minutes with
      | none =>
        (.awaitMinutesPrompt c,
         { d with pending := some .minutes, slots := { city := some c } })
      | some m =>
        if m = 0 then
          (.awaitMinutesPrompt c,
           { d with pending := some .minutes, slots := { city := some c } })
        else
          match plan c m with
          | none => (.planFail, d)
          | some res =>
            if res.stops.isEmpty then (.planFail, d)
            else
              (.itinerary res.city res.planned_minutes res.total_minutes res.stops,
               { d with last_itinerary_city := some c })

/-- The three follow-up shortcuts that reply directly (ticket info /
transportation tips / dining recommendations) for `last_itinerary_city`.
A failed ticket-info lookup falls out of the `if res:` with the `intent`
variable never assigned — an `UnboundLocalError` (HTTP 500), modelled as
`serverError`. -/
def followupReply (d : DlgCore) (m : String) : Reply × DlgCore :=
  let city := d.last_itinerary_city.getD ""
  if containsSub (lowerS m) "ticket info" then
    match lookup_place city with
    | some e => (.ticketInfo e.name, d)
    | none => (.serverError, d)
  else if containsSub (lowerS m) "transportation tips" then
    (.transportTips city, d)
  else (.diningRecs city, d)

/-- The body of the `/chat` route after the safety gate and sanitisation:
slot filling for a pending city or duration first, then the confirmation and
follow-up shortcuts, then normal intent routing. -/
def chatCore (d : DlgCore) (user_msg : String) : Reply × DlgCore :=
  match d.pending with
  | some .city =>
    (.awaitMinutesPrompt user_msg,
     { d with pending := some .minutes,
              slots := { d.slots with city := some user_msg } })
  | some .minutes =>
    (match Dlg.parse_minutes user_msg with
     | none => (.reprompt, d)
     | some mins =>
       if mins = 0 then (.reprompt, d)
       else
         let slots1 : Slots := { d.slots with minutes := some mins }
         let res := plan (slots1.city.getD "") (slots1.minutes.getD 180)
         let d1 := { d with pending := none, slots := {} }
         match res with
         | none => (.planFail, d1)
         | some r =>
           if r.stops.isEmpty then (.planFail, d1)
           else
             (.itinerary r.city r.planned_minutes r.total_minutes r.stops,
              { d1 with last_itinerary_city := some r.city }))
  | none =>
    let ms := pyStrip (lowerS user_msg)
    if confirmWords.contains ms && truthyS d.last_place then
      dispatchIntent d (.itineraryR d.last_place none)
    else if followupWords.contains ms && truthyS d.last_itinerary_city then
      if containsSub (lowerS user_msg) "ticket info" ||
          containsSub (lowerS user_msg) "transportation tips" ||
          containsSub (lowerS user_msg) "local dining recommendations" then
        followupReply d user_msg
      else dispatchIntent d (.factsR (d.last_itinerary_city.getD ""))
    else dispatchIntent d (Dlg.route_intent user_msg)

/-- The `/chat` route: the safety gate returns the violation reply before
anything is recorded; otherwise the sanitised message is appended to the
history, the dialogue body runs, and the bot reply is appended (except on
the modelled exception path, which aborts before the bot append). -/
def chat (prof : String → Bool) (s : Session) (raw : String) : Reply × Session :=
  let chk := IrwaSafety.check_input prof raw
  if chk.1 then
    let user_msg := IrwaSafety.sanitize raw
    let rd := chatCore s.dlg user_msg
    let hist := s.history ++ [HistEntry.user user_msg] ++
      (match rd.1 with
       | .serverError => []
       | r => [HistEntry.bot r])
    (rd.1, { dlg := rd.2, history := hist })
  else (.violation chk.2, s)

/-- `clear_slots()`: reset the pending slot and the collected slots. -/
def clear_slots (s : Session) : Session :=
  { s with dlg := { s.dlg with pending := none, slots := {} } }

/-- `DELETE /history` (`clear_history`): `session["history"] = []` — and
nothing else. -/
def clear_history (s : Session) : Session := { s with history := [] }

/-- The fresh session of the index route (`setdefault` of `pending`,
`slots`, `history`). -/
def initSession : Session := {}

/-- A sequence of turns: the replies in order and the final session. -/
def runChat (prof : String → Bool) (s : Session) : List String → List Reply × Session
  | [] => ([], s)
  | m :: ms =>
    let rs := chat prof s m
    let rest := runChat prof rs.2 ms
    (rs.1 :: rest.1, rest.2)

example :
    (chat (fun _ => false) initSession "please make a trip plan").1 =
      .awaitCityPrompt := by decide
example :
    (chat (fun _ => false) initSession "plan a tour").2.dlg.pending =
      some .minutes := by decide

end Chat

/-! ## Theorems for the claims -/

/-- C1: the claim states that for the normalised input
`"plan a 2 day trip to galle"` the classifier yields the trip-planning
intent with `city = "galle"` and a duration slot of 2880 minutes
(`×24×60`).  The code converts day units to *hours* (`duration *= 24`):
the extracted duration slot is `48`, not `2880`, so the claim is false at
its own example input. -/
theorem C1_counterexample :
    SG.analyze_query_trip "plan a 2 day trip to galle" =
      some (.planned 48 "galle") ∧ (48 : Nat) ≠ 2880 := by
  constructor
  · decide
  · decide

/-- C1 (amended): for the normalised input `"plan a 2 day trip to galle"`
the classifier returns the trip-planning intent with slot `city = "galle"`
and a duration slot of `2 * 24 = 48` hour units (day units converted via
`×24`, not `×24×60`). -/
theorem C1_amended :
    SG.analyze_query_trip "plan a 2 day trip to galle" =
      some (.planned (2 * 24) "galle") := by decide

/-- C10: when `process_query` blocks an input as a safety violation it
returns the violation response before the history-append step: the agent
state (its `conversation_history`) is returned unchanged, and the response
is the blocked safety-violation response.  Quantified over the abstract
response generator `gen` (the analysis/generation pipeline behind the safety
gate, which calls external services). -/
theorem C10_blocked_frame {α : Type} (gen : String → α) (st : SG.GuideState α)
    (q w : String) (h : SimpleSafety.check_input q = (false, w)) :
    SG.process_query gen st q =
      (.safetyViolation (SimpleSafety.violation_response_key q), st) := by
  unfold SG.process_query
  rw [h]

/-- C10 witness: the blocked input `"kill"` leaves a nonempty conversation
history untouched. -/
theorem C10_blocked_frame_witness :
    SimpleSafety.check_input "kill" = (false, "kill") ∧
    SG.process_query (fun _ => true) ⟨[ ( "earlier query", true ) ]⟩ "kill" =
      (.safetyViolation "kill", ⟨[ ( "earlier query", true ) ]⟩) := by
  refine ⟨by decide, ?_⟩
  have h := C10_blocked_frame (fun _ => true) ⟨[ ( "earlier query", true ) ]⟩
    "kill" "kill" (by decide)
  rw [h]
  decide

/-- C4: from the AWAITING_DURATION state (`pending = "minutes"`), a turn
whose sanitised text fails to parse as a duration leaves the whole dialogue
state unchanged (pending slot still the duration, collected slots untouched)
and replies with the re-prompt, not an error.  The safety screen runs before
the state machine (spec §2 control flow), so the turn is the one the machine
processes: the screen passes it. -/
theorem C4_duration_reprompt (prof : String → Bool) (s : Chat.Session) (raw : String)
    (hp : s.dlg.pending = some Chat.Pending.minutes)
    (hsafe : IrwaSafety.check_input prof raw = (true, ""))
    (hparse : Dlg.parse_minutes (IrwaSafety.sanitize raw) = none) :
    (Chat.chat prof s raw).1 = Chat.Reply.reprompt ∧
    (Chat.chat prof s raw).2.dlg = s.dlg := by
  unfold Chat.chat
  rw [hsafe]
  simp only [Chat.chatCore, hp, hparse]
  exact ⟨rfl, rfl⟩

/-- C4 witness: the turn `"soon"` in AWAITING_DURATION with the city slot
already holding Kandy. -/
theorem C4_duration_reprompt_witness :
    (Chat.chat (fun _ => false)
        ⟨{ pending := some Chat.Pending.minutes,
           slots := { city := some "Kandy" } }, []⟩ "soon").1 =
      Chat.Reply.reprompt ∧
    (Chat.chat (fun _ => false)
        ⟨{ pending := some Chat.Pending.minutes,
           slots := { city := some "Kandy" } }, []⟩ "soon").2.dlg =
     { pending := some Chat.Pending.minutes, slots := { city := some "Kandy" } } :=
  C4_duration_reprompt (fun _ => false)
    ⟨{ pending := some Chat.Pending.minutes, slots := { city := some "Kandy" } }, []⟩
    "soon" (by decide) (by decide) (by decide)

/-- C2: the claim's turn 1 is wrong on the code.  From the idle state the
turn `"plan a tour"` does *not* move the machine to AWAITING_CITY: the city
extractor's short-query fallback title-cases the whole message into the city
`"Plan A Tour"`, so the machine jumps straight to AWAITING_DURATION with
that as the collected city (the profanity parameter is instantiated with the
constantly-false dictionary; the banned-substring and tag screens pass the
message as computed here). -/
theorem C2_counterexample :
    (Chat.chat (fun _ => false) Chat.initSession "plan a tour").2.dlg =
      { pending := some Chat.Pending.minutes,
        slots := { city := some "Plan A Tour" } } ∧
    (Chat.chat (fun _ => false) Chat.initSession "plan a tour").1 =
      Chat.Reply.awaitMinutesPrompt "Plan A Tour" := by
  constructor
  · decide
  · decide

/-- The session awaiting a city (as turn 1 of the amended C2 leaves it). -/
def sessionAwaitCity : Chat.Session :=
  { dlg := { pending := some Chat.Pending.city } }

/-- A session awaiting a duration with the city slot holding `"kandy"`. -/
def sessionAwaitKandy : Chat.Session :=
  { dlg := { pending := some Chat.Pending.minutes,
             slots := { city := some "kandy" } } }

/-- C2 (amended): the three-turn dialogue works as claimed once turn 1 is an
itinerary request from which no city can be extracted (more than three words
and no `in/at/around/for` phrase), e.g. `"please make a trip plan"`: turn 1
moves the idle machine to AWAITING_CITY; turn 2 `"kandy"` is consumed as the
city verbatim and moves it to AWAITING_DURATION with `slots.city = "kandy"`;
turn 3 `"2 hours"` parses as 120 minutes, returns the machine to IDLE
(`clear_slots`), and produces the itinerary response for Kandy with total
120 minutes (the itinerary builder and gazetteer data are modelled from the
spec). -/
theorem C2_amended :
    (Chat.chat (fun _ => false) Chat.initSession "please make a trip plan").1 =
      Chat.Reply.awaitCityPrompt ∧
    (Chat.chat (fun _ => false) Chat.initSession "please make a trip plan").2.dlg =
      sessionAwaitCity.dlg ∧
    (Chat.chat (fun _ => false) sessionAwaitCity "kandy").1 =
      Chat.Reply.awaitMinutesPrompt "kandy" ∧
    (Chat.chat (fun _ => false) sessionAwaitCity "kandy").2.dlg =
      sessionAwaitKandy.dlg ∧
    (Chat.chat (fun _ => false) sessionAwaitKandy "2 hours").1 =
      Chat.Reply.itinerary "Kandy" 190 120
        [ ( "Temple of the Tooth", 60 ), ( "Kandy Lake", 40 ),
          ( "Royal Botanical Gardens", 90 ) ] ∧
    (Chat.chat (fun _ => false) sessionAwaitKandy "2 hours").2.dlg =
      { pending := none, slots := {}, last_itinerary_city := some "Kandy" } := by
  refine ⟨by decide, by decide, by decide, by decide, by decide, by decide⟩

/-- C9: the claim is wrong on the code: the history-clear action
(`DELETE /history`) sets `session["history"] = []` and nothing else — it
does not reset the pending slot or the collected slots.  After the fresh-run
sequence `["plan a tour", "hi"]` (which leaves the machine awaiting a
duration), clearing the history and replaying the same two turns produces
`[reprompt, reprompt]` instead of the first run's replies: the dialogue
state leaks across the reset. -/
theorem C9_counterexample :
    (Chat.runChat (fun _ => false) Chat.initSession [ "plan a tour", "hi" ]).1 =
      [ Chat.Reply.awaitMinutesPrompt "Plan A Tour", Chat.Reply.reprompt ] ∧
    (Chat.clear_history
        (Chat.runChat (fun _ => false) Chat.initSession
          [ "plan a tour", "hi" ]).2).dlg.pending = some Chat.Pending.minutes ∧
    (Chat.runChat (fun _ => false)
        (Chat.clear_history
          (Chat.runChat (fun _ => false) Chat.initSession
            [ "plan a tour", "hi" ]).2)
        [ "plan a tour", "hi" ]).1 =
      [ Chat.Reply.reprompt, Chat.Reply.reprompt ] ∧
    ([ Chat.Reply.reprompt, Chat.Reply.reprompt ] ≠
      [ Chat.Reply.awaitMinutesPrompt "Plan A Tour", Chat.Reply.reprompt ]) := by
  refine ⟨by decide, by decide, by decide, by decide⟩

/-- One chat turn depends on the session only through its dialogue part:
equal dialogue states give the same reply and equal next dialogue states. -/
theorem chat_dlg_congr (prof : String → Bool) (s₁ s₂ : Chat.Session) (m : String)
    (h : s₁.dlg = s₂.dlg) :
    (Chat.chat prof s₁ m).1 = (Chat.chat prof s₂ m).1 ∧
    (Chat.chat prof s₁ m).2.dlg = (Chat.chat prof s₂ m).2.dlg := by
  unfold Chat.chat
  rw [h]
  by_cases hc : (IrwaSafety.check_input prof m).1 = true <;> simp [hc, h]

/-- Reply sequences depend on the session only through its dialogue part. -/
theorem runChat_dlg_congr (prof : String → Bool) (msgs : List String) :
    ∀ (s₁ s₂ : Chat.Session), s₁.dlg = s₂.dlg →
      (Chat.runChat prof s₁ msgs).1 = (Chat.runChat prof s₂ msgs).1 := by
  induction msgs with
  | nil => intro s₁ s₂ _; rfl
  | cons m ms ih =>
    intro s₁ s₂ h
    have hc := chat_dlg_congr prof s₁ s₂ m h
    simp only [Chat.runChat]
    rw [hc.1, ih _ _ hc.2]

/-- C9 (amended): `clear_slots()` is what resets the dialogue to IDLE and
drops the collected slots; the history-clear action drops only the logged
history and leaves the dialogue state intact; and the chat route reads
nothing but the dialogue state, so two sessions with equal dialogue states
produce identical reply sequences for any turn sequence — in particular
replaying after a history-clear behaves exactly as the uncleared session
would, not as a fresh one. -/
theorem C9_amended :
    (∀ s : Chat.Session, (Chat.clear_slots s).dlg.pending = none ∧
      (Chat.clear_slots s).dlg.slots = {}) ∧
    (∀ s : Chat.Session, (Chat.clear_history s).dlg = s.dlg ∧
      (Chat.clear_history s).history = []) ∧
    (∀ (prof : String → Bool) (s₁ s₂ : Chat.Session) (msgs : List String),
      s₁.dlg = s₂.dlg →
      (Chat.runChat prof s₁ msgs).1 = (Chat.runChat prof s₂ msgs).1) := by
  refine ⟨fun s => ⟨rfl, rfl⟩, fun s => ⟨rfl, rfl⟩, ?_⟩
  intro prof s₁ s₂ msgs h
  exact runChat_dlg_congr prof msgs s₁ s₂ h

/-- C9 (amended) witness: a history-cleared mid-dialogue session replays
exactly like the uncleared one, and `clear_slots` resets the pending slot. -/
theorem C9_amended_witness :
    ((Chat.clear_slots sessionAwaitKandy).dlg.pending = none ∧
      (Chat.clear_slots sessionAwaitKandy).dlg.slots = {}) ∧
    (Chat.clear_history sessionAwaitKandy).dlg = sessionAwaitKandy.dlg ∧
    (Chat.runChat (fun _ => false) (Chat.clear_history sessionAwaitKandy)
        [ "2 hours", "hi" ]).1 =
      (Chat.runChat (fun _ => false) sessionAwaitKandy [ "2 hours", "hi" ]).1 := by
  refine ⟨C9_amended.1 _, (C9_amended.2.1 _).1, ?_⟩
  exact C9_amended.2.2 (fun _ => false) _ _ [ "2 hours", "hi" ] (by decide)

/-- The claimed state invariant: whenever the pending slot is the itinerary
duration, the collected slots already contain a city. -/
def cityInv (d : Chat.DlgCore) : Prop :=
  d.pending = some Chat.Pending.minutes → d.slots.city.isSome = true

/-- `dispatchIntent` preserves the city invariant. -/
theorem dispatchIntent_cityInv (d : Chat.DlgCore) (r : Dlg.Routed)
    (hinv : cityInv d) : cityInv (Chat.dispatchIntent d r).2 := by
  rcases r with _ | ⟨city, minutes⟩ | place | kind <;>
    dsimp only [Chat.dispatchIntent]
  · exact hinv
  · split
    · intro h; simp at h
    · split
      · intro _; rfl
      · split
        · intro _; rfl
        · split
          · exact hinv
          · split
            · exact hinv
            · exact hinv
  · split
    · exact hinv
    · exact hinv
  · exact hinv

/-- `followupReply` preserves the city invariant (it never touches the
dialogue slots). -/
theorem followupReply_cityInv (d : Chat.DlgCore) (m : String)
    (hinv : cityInv d) : cityInv (Chat.followupReply d m).2 := by
  dsimp only [Chat.followupReply]
  split
  · split
    · exact hinv
    · exact hinv
  · split
    · exact hinv
    · exact hinv

/-- The chat body preserves the city invariant. -/
theorem chatCore_cityInv (d : Chat.DlgCore) (m : String)
    (hinv : cityInv d) : cityInv (Chat.chatCore d m).2 := by
  obtain ⟨pd, sl, lp, lic⟩ := d
  rcases pd with _ | p
  · dsimp only [Chat.chatCore]
    split
    · exact dispatchIntent_cityInv _ _ hinv
    · split
      · split
        · exact followupReply_cityInv _ _ hinv
        · exact dispatchIntent_cityInv _ _ hinv
      · exact dispatchIntent_cityInv _ _ hinv
  · rcases p with _ | _ <;> dsimp only [Chat.chatCore]
    · intro _; rfl
    · rcases hpm : Dlg.parse_minutes m with _ | mins
      · simp only [hpm]
        exact hinv
      · simp only [hpm]
        split
        · exact hinv
        · split
          · intro h; simp at h
          · split
            · intro h; simp at h
            · intro h; simp at h

/-- C5: the invariant "pending = duration implies a city is already
collected" is preserved by every chat turn, holds after `clear_slots()`,
and holds in the fresh session. -/
theorem C5_invariant (prof : String → Bool) (s : Chat.Session) (raw : String)
    (hinv : cityInv s.dlg) :
    cityInv (Chat.chat prof s raw).2.dlg ∧
    (∀ s' : Chat.Session, cityInv (Chat.clear_slots s').dlg) ∧
    cityInv Chat.initSession.dlg := by
  refine ⟨?_, fun s' => by intro h; simp [Chat.clear_slots] at h, by intro h; simp [Chat.initSession] at h⟩
  unfold Chat.chat
  by_cases hc : (IrwaSafety.check_input prof raw).1 = true
  · simp only [hc, if_true]
    exact chatCore_cityInv s.dlg (IrwaSafety.sanitize raw) hinv
  · simp only [hc, if_false]
    exact hinv

/-- C5 witness: one concrete turn from a state satisfying the invariant. -/
theorem C5_invariant_witness :
    cityInv (Chat.chat (fun _ => false) sessionAwaitKandy "not a duration").2.dlg ∧
    (∀ s' : Chat.Session, cityInv (Chat.clear_slots s').dlg) ∧
    cityInv Chat.initSession.dlg :=
  C5_invariant (fun _ => false) sessionAwaitKandy "not a duration" (by intro _; decide)

/-- The session state a facts turn about Sigiriya leaves behind. -/
def sessionAfterFacts : Chat.Session :=
  { dlg := { last_place := some "Sigiriya" } }

/-- C6: with no pending slot, a short affirmation while `last_place` is set
synthesises an itinerary intent for the remembered place — the turn's
outcome is the itinerary dispatch for that place (asking for the missing
duration and remembering the city), fully determined by `last_place` and
never by the classifier; the classifier on `"yes"` would classify it as a
`facts` request instead.  Concretely, after a facts turn about Sigiriya sets
`last_place = "Sigiriya"`, the next turn `"yes"` dispatches the itinerary
intent for Sigiriya. -/
theorem C6_affirmation :
    (∀ (d : Chat.DlgCore) (m p : String),
      d.pending = none →
      Chat.confirmWords.contains (pyStrip (lowerS m)) = true →
      d.last_place = some p → p ≠ "" →
      Chat.chatCore d m =
        (Chat.Reply.awaitMinutesPrompt p,
         { d with pending := some Chat.Pending.minutes,
                  slots := { city := some p } })) ∧
    Dlg.route_intent "yes" = Dlg.Routed.factsR "yes" ∧
    (Chat.chat (fun _ => false) Chat.initSession "tell me about sigiriya").1 =
      Chat.Reply.factsReply "Sigiriya" ∧
    (Chat.chat (fun _ => false) Chat.initSession "tell me about sigiriya").2.dlg =
      sessionAfterFacts.dlg ∧
    (Chat.chat (fun _ => false) sessionAfterFacts "yes").1 =
      Chat.Reply.awaitMinutesPrompt "Sigiriya" ∧
    (Chat.chat (fun _ => false) sessionAfterFacts "yes").2.dlg =
      { pending := some Chat.Pending.minutes,
        slots := { city := some "Sigiriya" },
        last_place := some "Sigiriya" } := by
  refine ⟨?_, by decide, by decide, by decide, by decide, by decide⟩
  intro d m p hp hc hl hne
  unfold Chat.chatCore
  rw [hp, hl]
  have ht : Chat.truthyS (some p) = true := by
    simp [Chat.truthyS, hne]
  simp only [hc, ht, Bool.and_true, Bool.true_and, if_true]
  unfold Chat.dispatchIntent
  simp only [ht, Bool.not_true, Bool.false_eq_true, if_false, Option.getD_some]
  rw [hl]

/-- C6 witness: the general shortcut applied at a concrete state and
message. -/
theorem C6_affirmation_witness :
    Chat.chatCore { last_place := some "Sigiriya" } "ok" =
      (Chat.Reply.awaitMinutesPrompt "Sigiriya",
       { pending := some Chat.Pending.minutes,
         slots := { city := some "Sigiriya" },
         last_place := some "Sigiriya" }) :=
  C6_affirmation.1 { last_place := some "Sigiriya" } "ok" "Sigiriya" rfl
    (by decide) rfl (by decide)

/-- C7: the claim says the corrector otherwise "returns the original token
unchanged", for every token.  The code returns `name.strip().lower()` on the
no-match path, so a token that is not already lowercase comes back changed:
`"Xyzzynotaplace"` (in the gazetteer under no spelling) returns
`"xyzzynotaplace"`, not the original token. -/
theorem C7_counterexample :
    SG.fuzzy_correct_place "Xyzzynotaplace" = "xyzzynotaplace" ∧
    SG.knownSriLankaPlaces.contains "xyzzynotaplace" = false ∧
    "xyzzynotaplace" ≠ "Xyzzynotaplace" := by
  refine ⟨by decide, by decide, by decide⟩

/-- The best-scoring close match is always drawn from the possibilities
passed in: the selection fold returns its seed or a scored list member. -/
theorem foldl_pickBetter_mem :
    ∀ (l : List ((Nat × Nat) × String)) (init : Option ((Nat × Nat) × String))
      (p : (Nat × Nat) × String),
      l.foldl pickBetter init = some p → init = some p ∨ p ∈ l := by
  intro l
  induction l with
  | nil => exact fun init p h => Or.inl h
  | cons a as ih =>
    intro init p h
    simp only [List.foldl_cons] at h
    rcases ih _ p h with h1 | h2
    · rcases init with _ | r
      · simp only [pickBetter, Option.some.injEq] at h1
        exact Or.inr (h1 ▸ List.mem_cons_self a as)
      · by_cases hc :
            (fracLT r.1 a.1 || (fracEQ r.1 a.1 && strLtL r.2.data a.2.data)) = true
        · simp only [pickBetter, hc, if_true, Option.some.injEq] at h1
          exact Or.inr (h1 ▸ List.mem_cons_self a as)
        · simp only [pickBetter, hc, Bool.false_eq_true, if_false] at h1
          exact Or.inl h1
    · exact Or.inr (List.mem_cons_of_mem a h2)

/-- `get_close_matches` only ever returns one of the possibilities. -/
theorem closeMatchBest_mem (w : String) (ps : List String) (c : Nat × Nat)
    (x : String) (h : closeMatchBest w ps c = some x) : x ∈ ps := by
  unfold closeMatchBest at h
  rw [Option.map_eq_some'] at h
  obtain ⟨p, hf, hx⟩ := h
  rcases foldl_pickBetter_mem _ _ _ hf with h1 | h2
  · exact absurd h1 (by simp)
  · rw [List.mem_filterMap] at h2
    obtain ⟨a, ha, hfa⟩ := h2
    by_cases hc : fracLE c (simPair a.data w.data) = true
    · simp only [hc, if_true, Option.some.injEq] at hfa
      rw [← hx, ← hfa]
      exact ha
    · simp [hc] at hfa

/-- C7 (amended): place correction is a total function that never raises:
it returns a known gazetteer place on an exact or fuzzy (cutoff 0.75) hit
and otherwise the stripped, lowercased token — which is the original token
unchanged exactly when the token is already stripped and lowercase.  In
particular `correct_place("kandi") = "kandy"` and
`correct_place("xyzzynotaplace") = "xyzzynotaplace"`. -/
theorem C7_amended :
    SG.fuzzy_correct_place "kandi" = "kandy" ∧
    SG.fuzzy_correct_place "xyzzynotaplace" = "xyzzynotaplace" ∧
    ∀ name : String,
      SG.fuzzy_correct_place name ∈ SG.knownSriLankaPlaces ∨
      SG.fuzzy_correct_place name = lowerS (pyStrip name) := by
  refine ⟨by decide, by decide, ?_⟩
  intro name
  unfold SG.fuzzy_correct_place
  by_cases h0 : name = ""
  · subst h0
    right
    decide
  · simp only [h0, if_false]
    by_cases h1 :
        SG.knownSriLankaPlaces.contains (lowerS (pyStrip name)) = true
    · simp only [h1, if_true]
      exact Or.inl (List.mem_of_elem_eq_true h1)
    · simp only [h1, Bool.false_eq_true, if_false]
      rcases hm : closeMatchBest (lowerS (pyStrip name))
          SG.knownSriLankaPlaces (3, 4) with _ | mbest
      · exact Or.inr rfl
      · exact Or.inl (closeMatchBest_mem _ _ _ _ hm)

/-- C3: the claim is false as stated.  `TIME_PAT` permits fractional hours
(`\d+(?:\.\d+)?`): on `"1.5 hours"` the parser returns `round(1.5 × 60) = 90`
minutes, which is neither `None` (the claim's answer if the text matches
neither of its integer patterns) nor of the form `max(30, 60·h)` for an
integer hour capture `h` (every such value is 30 or a multiple of 60, and
90 is neither). -/
theorem C3_counterexample :
    Dlg.parse_minutes "1.5 hours" = some 90 ∧ (90 : Nat) ≠ 30 ∧ 90 % 60 ≠ 0 := by
  refine ⟨by decide, by decide, by decide⟩

/-- `Char.ofNat` on a small code point round-trips through `toNat`. -/
theorem char_toNat_ofNat {n : Nat} (h : n < 128) : (Char.ofNat n).toNat = n := by
  have hv : n.isValidChar := Or.inl (by omega)
  rw [Char.ofNat, dif_pos hv]
  simp [Char.ofNatAux, Char.toNat, UInt32.toNat, UInt32.ofNat', BitVec.toNat_ofNatLt]

/-- Lowercasing does not change a digit. -/
theorem lowerCh_digit {c : Char} (h : isDigitCh c = true) : lowerCh c = c := by
  simp only [isDigitCh, Bool.and_eq_true, decide_eq_true_eq] at h
  have hu : isUpperCh c = false := by
    simp only [isUpperCh, Bool.and_eq_true, Bool.and_eq_false_iff]
    simp only [decide_eq_false_iff_not]
    omega
  simp [lowerCh, hu]

/-- Lowercasing cannot create or destroy a digit. -/
theorem isDigitCh_lowerCh (c : Char) : isDigitCh (lowerCh c) = isDigitCh c := by
  by_cases hu : isUpperCh c = true
  · have hb : 65 ≤ c.toNat ∧ c.toNat ≤ 90 := by
      simpa [isUpperCh] using hu
    have h1 : (Char.ofNat (c.toNat + 32)).toNat = c.toNat + 32 :=
      char_toNat_ofNat (by omega)
    have hL : isDigitCh (Char.ofNat (c.toNat + 32)) = false := by
      simp only [isDigitCh, h1, Bool.and_eq_false_iff, decide_eq_false_iff_not]
      omega
    have hR : isDigitCh c = false := by
      simp only [isDigitCh, Bool.and_eq_false_iff, decide_eq_false_iff_not]
      omega
    rw [lowerCh, if_pos hu, hL, hR]
  · rw [lowerCh, if_neg hu]

/-- `takeWhile` passes over a prefix on which the predicate holds. -/
theorem takeWhile_append_of_all {p : Char → Bool} :
    ∀ (ds r : List Char), (∀ c ∈ ds, p c = true) →
      (ds ++ r).takeWhile p = ds ++ r.takeWhile p := by
  intro ds
  induction ds with
  | nil => intro r _; rfl
  | cons d dt ih =>
    intro r h
    have hd := h d (List.mem_cons_self _ _)
    simp only [List.cons_append, List.takeWhile_cons, hd, if_true]
    rw [ih r (fun c hc => h c (List.mem_cons_of_mem _ hc))]

/-- `dropWhile` drops a prefix on which the predicate holds. -/
theorem dropWhile_append_of_all {p : Char → Bool} :
    ∀ (ds r : List Char), (∀ c ∈ ds, p c = true) →
      (ds ++ r).dropWhile p = r.dropWhile p := by
  intro ds
  induction ds with
  | nil => intro r _; rfl
  | cons d dt ih =>
    intro r h
    have hd := h d (List.mem_cons_self _ _)
    simp only [List.cons_append, List.dropWhile_cons, hd, if_true]
    exact ih r (fun c hc => h c (List.mem_cons_of_mem _ hc))

/-- Lowercasing fixes an all-digit list. -/
theorem lowerL_digits {ds : List Char} (h : ∀ c ∈ ds, isDigitCh c = true) :
    lowerL ds = ds := by
  induction ds with
  | nil => rfl
  | cons d dt ih =>
    simp only [lowerL, List.map_cons]
    rw [show lowerCh d = d from lowerCh_digit (h d (List.mem_cons_self _ _))]
    have := ih (fun c hc => h c (List.mem_cons_of_mem _ hc))
    simp only [lowerL] at this
    rw [this]

/-- A matcher succeeding at the head makes the search succeed there. -/
theorem reSearch_head {α : Type} (m : List Char → Option α) (l : List Char)
    (r : α) (h : m l = some r) : reSearch m l = some r := by
  cases l with
  | nil => exact h
  | cons c cs => simp [reSearch, h]

/-- Rounding an integer is the identity. -/
theorem roundHalfEven_one (k : Nat) : roundHalfEven k 1 = k := by
  simp [roundHalfEven, Nat.mod_one, Nat.div_one]

/-- `TIME_PAT` at a digit run followed by a space and a unit word: the match
captures exactly the digits and dispatches on the unit. -/
theorem timeMatchAt_digits_space (ds : List Char) (hne : ds ≠ [])
    (hdig : ∀ c ∈ ds, isDigitCh c = true) (w : List Char) :
    Dlg.timeMatchAt (ds ++ ' ' :: w) =
      (if Dlg.hoursUnitAt (w.dropWhile isSpaceCh) then
        some (Dlg.TimeVal.hoursV (digitsToNat ds) [])
      else if Dlg.minutesUnitAt (w.dropWhile isSpaceCh) then
        some (Dlg.TimeVal.minutesV (digitsToNat ds))
      else none) := by
  unfold Dlg.timeMatchAt
  rw [takeWhile_append_of_all ds _ hdig, dropWhile_append_of_all ds _ hdig]
  have ht : (' ' :: w).takeWhile isDigitCh = [] := by
    simp [List.takeWhile_cons, show isDigitCh ' ' = false from by decide]
  have hd : (' ' :: w).dropWhile isDigitCh = ' ' :: w := by
    simp [List.dropWhile_cons, show isDigitCh ' ' = false from by decide]
  rw [ht, hd, List.append_nil]
  have hnemp : ds.isEmpty = false := by
    cases ds
    · exact absurd rfl hne
    · rfl
  have hsp : (' ' :: w).dropWhile isSpaceCh = w.dropWhile isSpaceCh := by
    simp [List.dropWhile_cons, show isSpaceCh ' ' = true from by decide]
  simp [hnemp, hsp, show ¬((' ' : Char) = '.') from by decide]

/-- Lowercasing fixes an all-digit prefix and a concrete lowercase tail. -/
theorem lowerL_digits_append (ds tail : List Char)
    (hdig : ∀ c ∈ ds, isDigitCh c = true)
    (htail : tail.map lowerCh = tail) :
    lowerL (ds ++ tail) = ds ++ tail := by
  simp only [lowerL, List.map_append, htail]
  have h1 : ds.map lowerCh = ds := by
    have := lowerL_digits hdig
    simpa [lowerL] using this
  rw [h1]

/-- The duration parser on `"<digits> hours"`: the hour count times 60,
clamped to at least 30 minutes.  Restricted to captures of at most 14
digits: there `n ≤ 10^14 − 1` and `n·60 < 2^53`, so the source's
double-precision `float(n) * 60` is exact and the exact-rational embedding
computes the same value; outside this regime the float product rounds and
the equation would not be a fact of the source. -/
theorem parse_minutes_hours_family (ds : List Char) (hne : ds ≠ [])
    (_hlen : ds.length ≤ 14)
    (hdig : ∀ c ∈ ds, isDigitCh c = true) :
    Dlg.parse_minutes (String.mk (ds ++ ( " hours").data)) =
      some (max 30 (digitsToNat ds * 60)) := by
  unfold Dlg.parse_minutes
  rw [show (String.mk (ds ++ ( " hours").data)).data = ds ++ ( " hours").data from rfl]
  rw [lowerL_digits_append ds ( " hours").data hdig (by decide)]
  have hmatch : Dlg.timeMatchAt (ds ++ ( " hours").data) =
      some (Dlg.TimeVal.hoursV (digitsToNat ds) []) := by
    have h := timeMatchAt_digits_space ds hne hdig ( "hours").data
    rw [show (ds ++ ' ' :: ( "hours").data) = ds ++ ( " hours").data from rfl] at h
    rw [h]
    rw [show Dlg.hoursUnitAt (( "hours").data.dropWhile isSpaceCh) = true from by decide]
    rfl
  rw [reSearch_head _ _ _ hmatch]
  simp [roundHalfEven_one, digitsToNat]

/-- The duration parser on `"<digits> minutes"`: the minute count clamped to
at least 15 minutes. -/
theorem parse_minutes_minutes_family (ds : List Char) (hne : ds ≠ [])
    (hdig : ∀ c ∈ ds, isDigitCh c = true) :
    Dlg.parse_minutes (String.mk (ds ++ ( " minutes").data)) =
      some (max 15 (digitsToNat ds)) := by
  unfold Dlg.parse_minutes
  rw [show (String.mk (ds ++ ( " minutes").data)).data =
    ds ++ ( " minutes").data from rfl]
  rw [lowerL_digits_append ds ( " minutes").data hdig (by decide)]
  have hmatch : Dlg.timeMatchAt (ds ++ ( " minutes").data) =
      some (Dlg.TimeVal.minutesV (digitsToNat ds)) := by
    have h := timeMatchAt_digits_space ds hne hdig ( "minutes").data
    rw [show (ds ++ ' ' :: ( "minutes").data) = ds ++ ( " minutes").data from rfl] at h
    rw [h]
    rw [show Dlg.hoursUnitAt (( "minutes").data.dropWhile isSpaceCh) = false from by decide]
    rw [show Dlg.minutesUnitAt (( "minutes").data.dropWhile isSpaceCh) = true from by decide]
    rfl
  rw [reSearch_head _ _ _ hmatch]

/-- `TIME_PAT` cannot match at a position that does not start with a digit. -/
theorem timeMatchAt_no_digit (l : List Char) (h : ∀ c ∈ l, isDigitCh c = false) :
    Dlg.timeMatchAt l = none := by
  unfold Dlg.timeMatchAt
  cases l with
  | nil => rfl
  | cons c cs =>
    have hc := h c (List.mem_cons_self _ _)
    simp [List.takeWhile_cons, hc]

/-- `TIME_PAT` finds no match in a digit-free text. -/
theorem reSearch_time_no_digit :
    ∀ l : List Char, (∀ c ∈ l, isDigitCh c = false) →
      reSearch Dlg.timeMatchAt l = none := by
  intro l
  induction l with
  | nil => intro h; exact timeMatchAt_no_digit [] h
  | cons c cs ih =>
    intro h
    simp only [reSearch]
    rw [timeMatchAt_no_digit _ h]
    exact ih (fun d hd => h d (List.mem_cons_of_mem _ hd))

/-- The duration parser returns nothing on a digit-free text. -/
theorem parse_minutes_no_digit (t : String) (h : ∀ c ∈ t.data, isDigitCh c = false) :
    Dlg.parse_minutes t = none := by
  unfold Dlg.parse_minutes
  have hl : ∀ c ∈ lowerL t.data, isDigitCh c = false := by
    intro c hc
    simp only [lowerL] at hc
    obtain ⟨c0, hc0, rfl⟩ := List.mem_map.mp hc
    rw [isDigitCh_lowerCh]
    exact h c0 hc0
  rw [reSearch_time_no_digit _ hl]

/-- C3 (amended): the claim's integer-only reading of `TIME_PAT` is wrong —
the hour capture `\d+(?:\.\d+)?` allows a decimal point, and `"1.5 hours"`
parses to `round(1.5 × 60) = 90`, a value the claim cannot produce.  What
does hold, and is proved here, are the claim's own two families and its
no-match case: for a digit string `n` of at most 14 digits, `"n hours"`
parses to `max(30, 60·n)` — the bound keeps `n` and `n·60` below `2^53`, so
the source's double-precision `float(n) * 60` is exact and agrees with this
embedding; outside it the float product rounds — for every digit string
`m`, `"m minutes"` parses to `max(15, m)` (a pure `int` path, no floats),
and a text containing no digit parses to `None`, since every `TIME_PAT`
match starts with a digit.  The decimal point `"1.5"` is the concrete
fractional witness (1.5 and 90 are exact doubles). -/
theorem C3_amended :
    (∀ ds : List Char, ds ≠ [] → ds.length ≤ 14 →
      (∀ c ∈ ds, isDigitCh c = true) →
      Dlg.parse_minutes (String.mk (ds ++ ( " hours").data)) =
        some (max 30 (digitsToNat ds * 60))) ∧
    (∀ ds : List Char, ds ≠ [] → (∀ c ∈ ds, isDigitCh c = true) →
      Dlg.parse_minutes (String.mk (ds ++ ( " minutes").data)) =
        some (max 15 (digitsToNat ds))) ∧
    (∀ t : String, (∀ c ∈ t.data, isDigitCh c = false) →
      Dlg.parse_minutes t = none) ∧
    Dlg.parse_minutes "1.5 hours" = some 90 :=
  ⟨parse_minutes_hours_family, parse_minutes_minutes_family,
   parse_minutes_no_digit, by decide⟩

/-- C3 (amended) witness: the families at concrete digit strings. -/
theorem C3_amended_witness :
    Dlg.parse_minutes (String.mk ([ '2' ] ++ ( " hours").data)) =
      some (max 30 (digitsToNat [ '2' ] * 60)) ∧
    Dlg.parse_minutes (String.mk ([ '9', '0' ] ++ ( " minutes").data)) =
      some (max 15 (digitsToNat [ '9', '0' ])) ∧
    Dlg.parse_minutes "no duration here" = none :=
  ⟨C3_amended.1 [ '2' ] (by decide) (by decide) (by decide),
   C3_amended.2.1 [ '9', '0' ] (by decide) (by decide),
   C3_amended.2.2.1 "no duration here" (by decide)⟩

/-- C8: the claim's completeness direction is false.  `"onmouseover=1"`
contains no banned term (exact or variant) and passes the length and
word-repetition checks, yet `check_input` rejects it: the JS-injection
pattern `on\w+\s*=` trips and the screen returns `(false, "script")`
(profanity dictionary modelled as matching nothing; the category would be
`"profanity"` instead for a dictionary that flagged it, still not
`allowed = true`). -/
theorem C8_counterexample :
    SafetyAgent.check_input (fun _ => false) "onmouseover=1" = (false, "script") ∧
    SafetyAgent.BANNED_SUBSTRINGS.all
      (fun b => !containsSub (lowerS "onmouseover=1") b) = true ∧
    SafetyAgent.VARIATIONS.all (fun bv =>
      !containsSub (lowerS "onmouseover=1") bv.1 &&
      bv.2.all (fun v => !containsSub (lowerS "onmouseover=1") v)) = true ∧
    SafetyAgent.spamFlag "onmouseover=1" = false ∧
    ( "onmouseover=1").length ≤ 5000 := by
  refine ⟨by decide, by decide, by decide, by decide, by decide⟩

/-- A banned substring in the text makes the first scan return a banned
substring that the text contains. -/
theorem contains_banned_finds (t b : String)
    (hb : b ∈ SafetyAgent.BANNED_SUBSTRINGS)
    (hc : containsSub (lowerS t) b = true) :
    ∃ x, SafetyAgent.BANNED_SUBSTRINGS.find?
        (fun y => containsSub (lowerS t) y) = some x ∧
      x ∈ SafetyAgent.BANNED_SUBSTRINGS ∧ containsSub (lowerS t) x = true := by
  have hs : (SafetyAgent.BANNED_SUBSTRINGS.find?
      (fun y => containsSub (lowerS t) y)).isSome := by
    rw [List.find?_isSome]
    exact ⟨b, hb, hc⟩
  obtain ⟨x, hx⟩ := Option.isSome_iff_exists.mp hs
  exact ⟨x, hx, List.mem_of_find?_eq_some hx, List.find?_some hx⟩

/-- Every entry of the banned-substring table is a nonempty string. -/
theorem banned_substrings_nonempty :
    ∀ y ∈ SafetyAgent.BANNED_SUBSTRINGS, y ≠ "" := by decide

/-- Every base word of the variations table is a nonempty string. -/
theorem variations_bases_nonempty :
    ∀ bv ∈ SafetyAgent.VARIATIONS, bv.1 ≠ "" := by decide

/-- C8 (amended): soundness holds as claimed — an input containing a banned
term is rejected, with the reported category itself a banned term contained
in the input, and *the* matched term's category whenever only one banned
term occurs; soundness also holds for the registered obfuscated variants —
an input containing a variation-table base word or any of its variants is
rejected, the reported category being either a contained banned term or the
base word of a matching variations entry; the completeness direction needs
the claim's conditions (no banned term or variant, passing length and
repetition checks) to be joined by the remaining screen layers the claim
omits — the profanity dictionary, the raw-HTML-tag pattern and the JS- and
SQL-injection patterns — and then the screen allows the input. -/
theorem C8_amended :
    (∀ (prof : String → Bool) (t b : String),
      b ∈ SafetyAgent.BANNED_SUBSTRINGS → containsSub (lowerS t) b = true →
      (SafetyAgent.check_input prof t).1 = false ∧
      (SafetyAgent.check_input prof t).2 ∈ SafetyAgent.BANNED_SUBSTRINGS ∧
      containsSub (lowerS t) (SafetyAgent.check_input prof t).2 = true) ∧
    (∀ (prof : String → Bool) (t b : String),
      b ∈ SafetyAgent.BANNED_SUBSTRINGS → containsSub (lowerS t) b = true →
      (∀ b' ∈ SafetyAgent.BANNED_SUBSTRINGS,
        containsSub (lowerS t) b' = true → b' = b) →
      SafetyAgent.check_input prof t = (false, b)) ∧
    (∀ (prof : String → Bool) (t : String),
      (∃ bv ∈ SafetyAgent.VARIATIONS, containsSub (lowerS t) bv.1 = true ∨
        ∃ v ∈ bv.2, containsSub (lowerS t) v = true) →
      (SafetyAgent.check_input prof t).1 = false ∧
      ((SafetyAgent.check_input prof t).2 ∈ SafetyAgent.BANNED_SUBSTRINGS ∧
        containsSub (lowerS t) (SafetyAgent.check_input prof t).2 = true ∨
       ∃ bv ∈ SafetyAgent.VARIATIONS,
         (SafetyAgent.check_input prof t).2 = bv.1 ∧
         (containsSub (lowerS t) bv.1 = true ∨
          ∃ v ∈ bv.2, containsSub (lowerS t) v = true))) ∧
    (∀ (prof : String → Bool) (t : String),
      (∀ b ∈ SafetyAgent.BANNED_SUBSTRINGS, containsSub (lowerS t) b = false) →
      (∀ bv ∈ SafetyAgent.VARIATIONS, containsSub (lowerS t) bv.1 = false ∧
        ∀ v ∈ bv.2, containsSub (lowerS t) v = false) →
      prof t = false →
      searchB htmlTagAt (lowerS t).data = false →
      SafetyAgent.jsFlag t = false →
      SafetyAgent.sqlFlag t = false →
      (∀ w ∈ pySplitWs t.data, (pySplitWs t.data).count w ≤ 5) →
      t.length ≤ 5000 →
      SafetyAgent.check_input prof t = (true, "")) := by
  refine ⟨?_, ?_, ?_, ?_⟩
  · intro prof t b hb hc
    obtain ⟨x, hfind, hmem, hcont⟩ := contains_banned_finds t b hb hc
    have hcb : SafetyAgent.contains_banned t = x := by
      unfold SafetyAgent.contains_banned
      rw [hfind]
    have hnz : x ≠ "" := banned_substrings_nonempty x hmem
    unfold SafetyAgent.check_input
    rw [hcb, if_pos hnz]
    exact ⟨rfl, hmem, hcont⟩
  · intro prof t b hb hc huniq
    obtain ⟨x, hfind, hmem, hcont⟩ := contains_banned_finds t b hb hc
    have hxb : x = b := huniq x hmem hcont
    have hcb : SafetyAgent.contains_banned t = b := by
      unfold SafetyAgent.contains_banned
      rw [hfind, hxb]
    have hnz : b ≠ "" := banned_substrings_nonempty b hb
    unfold SafetyAgent.check_input
    rw [hcb, if_pos hnz]
  · intro prof t hex
    obtain ⟨bv, hbv, hmatch⟩ := hex
    cases hfb : SafetyAgent.BANNED_SUBSTRINGS.find?
        (fun b => containsSub (lowerS t) b) with
    | some x =>
      have hmem := List.mem_of_find?_eq_some hfb
      have hcont := List.find?_some hfb
      have hcb : SafetyAgent.contains_banned t = x := by
        unfold SafetyAgent.contains_banned
        rw [hfb]
      have hnz : x ≠ "" := banned_substrings_nonempty x hmem
      unfold SafetyAgent.check_input
      rw [hcb, if_pos hnz]
      exact ⟨rfl, Or.inl ⟨hmem, hcont⟩⟩
    | none =>
      have hpred : (fun bw => containsSub (lowerS t) bw.1 ||
          bw.2.any (fun v => containsSub (lowerS t) v)) bv = true := by
        rcases hmatch with h | ⟨v, hv, hc⟩
        · simp [h]
        · simp only [Bool.or_eq_true]
          exact Or.inr (List.any_eq_true.mpr ⟨v, hv, hc⟩)
      have hs : (SafetyAgent.VARIATIONS.find? (fun bw =>
          containsSub (lowerS t) bw.1 ||
          bw.2.any (fun v => containsSub (lowerS t) v))).isSome := by
        rw [List.find?_isSome]
        exact ⟨bv, hbv, hpred⟩
      obtain ⟨bw, hfv⟩ := Option.isSome_iff_exists.mp hs
      have hmemw := List.mem_of_find?_eq_some hfv
      have hpredw := List.find?_some hfv
      have hcb : SafetyAgent.contains_banned t = bw.1 := by
        unfold SafetyAgent.contains_banned
        rw [hfb, hfv]
      have hnz : bw.1 ≠ "" := variations_bases_nonempty bw hmemw
      unfold SafetyAgent.check_input
      rw [hcb, if_pos hnz]
      refine ⟨rfl, Or.inr ⟨bw, hmemw, rfl, ?_⟩⟩
      have hpw : containsSub (lowerS t) bw.1 = true ∨
          bw.2.any (fun v => containsSub (lowerS t) v) = true := by
        have hp := hpredw
        simp only [Bool.or_eq_true] at hp
        exact hp
      rcases hpw with h | h
      · exact Or.inl h
      · obtain ⟨v, hv, hc⟩ := List.any_eq_true.mp h
        exact Or.inr ⟨v, hv, hc⟩
  · intro prof t h1 h2 h3 h4 h5 h6 h7 h8
    have hf1 : SafetyAgent.BANNED_SUBSTRINGS.find?
        (fun y => containsSub (lowerS t) y) = none := by
      rw [List.find?_eq_none]
      intro x hx
      simp [h1 x hx]
    have hf2 : SafetyAgent.VARIATIONS.find? (fun bv =>
        containsSub (lowerS t) bv.1 ||
        bv.2.any (fun v => containsSub (lowerS t) v)) = none := by
      rw [List.find?_eq_none]
      intro bv hbv
      obtain ⟨hb1, hb2⟩ := h2 bv hbv
      simp only [hb1, Bool.false_or]
      simp only [Bool.not_eq_true, List.any_eq_false]
      intro v hv
      simp [hb2 v hv]
    have hcb : SafetyAgent.contains_banned t = "" := by
      unfold SafetyAgent.contains_banned
      rw [hf1, hf2]
    have hspam : SafetyAgent.spamFlag t = false := by
      unfold SafetyAgent.spamFlag
      have : (pySplitWs t.data).any (fun w => 5 < (pySplitWs t.data).count w)
          = false := by
        rw [List.any_eq_false]
        intro w hw
        simp only [decide_eq_true_eq, Nat.not_lt]
        exact h7 w hw
      rw [this, Bool.and_false]
    unfold SafetyAgent.check_input
    rw [hcb]
    simp only [ne_eq, not_true_eq_false, Bool.false_eq_true, if_false, h3,
      h4, Bool.and_false, h5, h6, hspam]
    rw [if_neg (by omega)]

/-- C8 (amended) witness: `"skillful"` contains exactly the banned term
`"kill"` and is rejected with that category; `"f*ck this"` contains only the
registered variant `"f*ck"` and is rejected; `"weather in kandy"` passes
every layer and is allowed. -/
theorem C8_amended_witness :
    SafetyAgent.check_input (fun _ => false) "skillful" = (false, "kill") ∧
    (SafetyAgent.check_input (fun _ => false) "skillful").1 = false ∧
    (SafetyAgent.check_input (fun _ => false) "f*ck this").1 = false ∧
    SafetyAgent.check_input (fun _ => false) "weather in kandy" = (true, "") :=
  ⟨C8_amended.2.1 (fun _ => false) "skillful" "kill" (by decide) (by decide)
      (by decide),
   (C8_amended.1 (fun _ => false) "skillful" "kill" (by decide) (by decide)).1,
   (C8_amended.2.2.1 (fun _ => false) "f*ck this" (by decide)).1,
   C8_amended.2.2.2 (fun _ => false) "weather in kandy" (by decide) (by decide)
      rfl (by decide) (by decide) (by decide) (by decide) (by decide)⟩

end VTG
